import Mathlib

/-!
# Inline::Python3 C helpers: ownership, trampoline and batch codec

A shallow embedding of the C helper layer (`python3_helper.c`,
`python3_batch_helper.c`) of the Raku/Python bridge, with the properties
stated about it.

Conventions of the embedding:

* a `PyObject *` used only for ownership is a `Handle` (an address) and the
  embedded runtime's `ob_refcnt` fields are a map `RefCounts`;
* a `PyObject *` whose type or value is inspected is a `PyObj` value;
* a C array reached through a pointer is a function from the slot index;
* a C string is a `String` (one without NUL character);
* a counted C loop is `forLoop`;
* the CPython API functions called by the helpers are modelled after the
  CPython C-API documentation, each next to its first use.
-/

namespace RakuPython3

/-! ## Definitions -/

/-- The counted loop `for (i = 0; i < n; i++) body(i)` over a state `σ`:
the bodies run in the order `0, 1, ..., n - 1`. -/
def forLoop {σ : Type} : Nat → (Nat → σ → σ) → σ → σ
  | 0, _, s => s
  | n + 1, body, s => body n (forLoop n body s)

/-- A C array reached through a pointer: slot `i` holds `a i`. -/
abbrev CArray (α : Type) := Nat → α

/-- Writing `a[i] = v`. -/
def CArray.write {α : Type} (a : CArray α) (i : Nat) (v : α) : CArray α :=
  Function.update a i v

/-- A `PyObject *` seen as an owned or borrowed reference: the object's address. -/
abbrev Handle := Nat

/-- The `ob_refcnt` field of every object of the embedded runtime. -/
abbrev RefCounts := Handle → Int

/-- CPython macro `Py_INCREF(h)`: one more reference to `h` (objects whose
count CPython keeps fixed, the immortal ones, are outside the model). -/
def Py_INCREF (h : Handle) (rc : RefCounts) : RefCounts :=
  Function.update rc h (rc h + 1)

/-- CPython macro `Py_DECREF(h)`: one reference to `h` fewer. -/
def Py_DECREF (h : Handle) (rc : RefCounts) : RefCounts :=
  Function.update rc h (rc h - 1)

/-- CPython macro `Py_XDECREF(p)`: `Py_DECREF` unless the pointer is `NULL`. -/
def Py_XDECREF (p : Option Handle) (rc : RefCounts) : RefCounts :=
  match p with
  | none => rc
  | some h => Py_DECREF h rc

/-- The two built-in sequence types the builders create. -/
inductive SeqKind
  | list
  | tuple
  deriving DecidableEq, Repr

/-- A list or tuple object: its `ob_item` vector, a `NULL` slot being `none`. -/
structure PySeqObject where
  kind : SeqKind
  ob_item : List (Option Handle)
  deriving DecidableEq, Repr

/-- CPython `PyList_New(size)`: a list of `size` `NULL` slots; `NULL` for a negative
size or when the allocator (`mem`) has no memory. -/
def PyList_New (mem : Bool) (size : Int) : Option PySeqObject :=
  if size < 0 then none
  else if mem then some ⟨SeqKind.list, List.replicate size.toNat none⟩
  else none

/-- CPython `PyTuple_New(size)`: a tuple of `size` `NULL` slots; `NULL` for a negative
size or when the allocator (`mem`) has no memory. -/
def PyTuple_New (mem : Bool) (size : Int) : Option PySeqObject :=
  if size < 0 then none
  else if mem then some ⟨SeqKind.tuple, List.replicate size.toNat none⟩
  else none

/-- CPython macro `PyList_SET_ITEM(list, i, v)`: stores the pointer in slot `i`, taking over
the caller's reference; no reference count changes. -/
def PyList_SET_ITEM (o : PySeqObject) (i : Nat) (v : Handle) : PySeqObject :=
  { o with ob_item := o.ob_item.set i (some v) }

/-- CPython macro `PyTuple_SET_ITEM(tuple, i, v)`: as `PyList_SET_ITEM`, for a tuple. -/
def PyTuple_SET_ITEM (o : PySeqObject) (i : Nat) (v : Handle) : PySeqObject :=
  { o with ob_item := o.ob_item.set i (some v) }

/-- Deallocation of a list or tuple whose last reference is released
(CPython `list_dealloc`, `tupledealloc`): every slot is `Py_XDECREF`ed. -/
def releaseContainer (o : PySeqObject) (rc : RefCounts) : RefCounts :=
  o.ob_item.foldl (fun r p => Py_XDECREF p r) rc

/-- Source function `python3_list_from_array` (python3_helper.c). -/
def python3_list_from_array (mem : Bool) (items : CArray Handle) (size : Int)
    (rc : RefCounts) : Option PySeqObject × RefCounts :=
  match PyList_New mem size with
  | none => (none, rc)
  | some list =>
    let s := forLoop size.toNat
      (fun i (s : PySeqObject × RefCounts) =>
        (PyList_SET_ITEM s.1 i (items i), Py_INCREF (items i) s.2))
      (list, rc)
    (some s.1, s.2)

/-- Source function `python3_tuple_from_array` (python3_helper.c). -/
def python3_tuple_from_array (mem : Bool) (items : CArray Handle) (size : Int)
    (rc : RefCounts) : Option PySeqObject × RefCounts :=
  match PyTuple_New mem size with
  | none => (none, rc)
  | some tuple =>
    let s := forLoop size.toNat
      (fun i (s : PySeqObject × RefCounts) =>
        (PyTuple_SET_ITEM s.1 i (items i), Py_INCREF (items i) s.2))
      (tuple, rc)
    (some s.1, s.2)

/-- Source function `python3_create_list_from_pointers` (python3_batch_helper.c); `count` is
an `int32_t`. -/
def python3_create_list_from_pointers (mem : Bool) (values : CArray Handle)
    (count : Int) (rc : RefCounts) : Option PySeqObject × RefCounts :=
  match PyList_New mem count with
  | none => (none, rc)
  | some list =>
    let s := forLoop count.toNat
      (fun i (s : PySeqObject × RefCounts) =>
        (PyList_SET_ITEM s.1 i (values i), Py_INCREF (values i) s.2))
      (list, rc)
    (some s.1, s.2)

/-- Source function `python3_create_tuple_from_pointers` (python3_batch_helper.c). -/
def python3_create_tuple_from_pointers (mem : Bool) (values : CArray Handle)
    (count : Int) (rc : RefCounts) : Option PySeqObject × RefCounts :=
  match PyTuple_New mem count with
  | none => (none, rc)
  | some tuple =>
    let s := forLoop count.toNat
      (fun i (s : PySeqObject × RefCounts) =>
        (PyTuple_SET_ITEM s.1 i (values i), Py_INCREF (values i) s.2))
      (tuple, rc)
    (some s.1, s.2)

/-- How many of the slots `values[0..n)` hold the handle `h`. -/
def occurrences (values : CArray Handle) (n : Nat) (h : Handle) : Nat :=
  (List.range n).countP (fun i => values i = h)

/-- The loop shared by the four builders, with the two `SET_ITEM` forms
unfolded: slot `i` receives `values[i]` after one `Py_INCREF`. -/
def fillLoop (values : CArray Handle) (n : Nat) (s : PySeqObject × RefCounts) :
    PySeqObject × RefCounts :=
  forLoop n (fun i (s : PySeqObject × RefCounts) =>
    (({ s.1 with ob_item := s.1.ob_item.set i (some (values i)) } : PySeqObject),
      Py_INCREF (values i) s.2)) s

/-! ### Objects by value, and the pending exception -/

/-- A C `double`, by its IEEE-754 binary64 bit pattern; arithmetic on doubles
is not modelled. -/
structure Double where
  bits : Nat
  deriving DecidableEq, Repr

/-- The constant `0.0`. -/
def Double.zero : Double := ⟨0⟩

/-- An object of the embedded runtime, by built-in type and value. Creating
an object is taken to succeed (no allocation failure at this level). A text
object is `str s` when all its code points are Unicode scalar values (the
texts a `String` can hold), and in general `ustr codes`, the list of its code
points, among which lone surrogates (`U+D800 .. U+DFFF`) may occur. -/
inductive PyObj
  | none
  | bool (b : Bool)
  | int (n : Int)
  | float (d : Double)
  | str (s : String)
  | ustr (codes : List Nat)
  | bytes (b : List Nat)
  | list (items : List PyObj)
  | tuple (items : List PyObj)

/-- CPython macro `PyLong_Check`: instances of `int` and of its subclass `bool`. -/
def PyLong_Check : PyObj → Bool
  | PyObj.int _ => true
  | PyObj.bool _ => true
  | _ => false

/-- CPython macro `PyFloat_Check`. -/
def PyFloat_Check : PyObj → Bool
  | PyObj.float _ => true
  | _ => false

/-- CPython macro `PyUnicode_Check`. -/
def PyUnicode_Check : PyObj → Bool
  | PyObj.str _ => true
  | PyObj.ustr _ => true
  | _ => false

/-- CPython macro `PyList_Check`. -/
def PyList_Check : PyObj → Bool
  | PyObj.list _ => true
  | _ => false

/-- The exception types raised by the helpers or by the CPython calls they make. -/
inductive PyExc
  | RuntimeError
  | AttributeError
  | TypeError
  | OverflowError
  | SystemError
  | UnicodeEncodeError
  deriving DecidableEq, Repr

/-- A pending exception: its type and, when the bridge chose it, its value
(`none` for a message generated inside CPython). -/
structure PendingExc where
  type : PyExc
  value : Option PyObj

/-- The part of the embedded runtime's thread state the helpers touch: the
pending exception, if any. -/
structure ThreadState where
  curexc : Option PendingExc

/-- CPython `PyErr_SetObject(type, value)`: the exception becomes pending,
replacing any earlier one. -/
def PyErr_SetObject (type : PyExc) (value : PyObj) (_ts : ThreadState) : ThreadState :=
  ⟨some ⟨type, some value⟩⟩

/-- An exception raised inside a CPython API function. -/
def raiseInternal (type : PyExc) (_ts : ThreadState) : ThreadState :=
  ⟨some ⟨type, none⟩⟩

/-- Whether an exception is pending (`PyErr_Occurred() != NULL`). -/
def ThreadState.pending (ts : ThreadState) : Bool := ts.curexc.isSome

/-! ### The callback trampoline (python3_helper.c) -/

/-- What a host callback hands back: the returned pointer (`none` for `NULL`),
what it stored through the `PyObject **error` out-parameter (`none` when it
left the initial `NULL`), and the thread state it leaves. -/
structure HostReply where
  result : Option PyObj
  error : Option PyObj
  tstate : ThreadState

/-- The `RakuCallbacks` struct: the two registered host function pointers. -/
structure RakuCallbacks where
  call_raku_object : Int → PyObj → ThreadState → HostReply
  call_raku_method : Int → String → PyObj → ThreadState → HostReply

/-- One invocation of a registered host function pointer, with its arguments. -/
inductive HostCall
  | object (index : Int) (args : PyObj)
  | method (index : Int) (name : String) (args : PyObj)

/-- The state the trampoline runs in: the thread state and the record of the
host callbacks invoked so far, oldest first. -/
structure World where
  tstate : ThreadState
  trace : List HostCall

/-- The `RakuObject` struct: `PyObject_HEAD` and the host callback index. -/
structure RakuObject where
  raku_index : Int

/-- Source function `raku_object_new`: `tp_alloc` gives the object (or `NULL`
without memory) and the index is set to `-1`. -/
def raku_object_new (mem : Bool) : Option RakuObject :=
  if mem then some ⟨-1⟩ else none

/-- Source function `raku_object_call`; `kwds` is not used by the C function.
The `Py_DECREF(error)` after `PyErr_SetObject` drops the callback's reference
to an object the pending exception now holds, which is not visible by value. -/
def raku_object_call (raku_callbacks : RakuCallbacks) (self : RakuObject) (args : PyObj)
    (_kwds : Option PyObj) (w : World) : Option PyObj × World :=
  let r := raku_callbacks.call_raku_object self.raku_index args w.tstate
  let w1 : World := ⟨r.tstate, w.trace ++ [HostCall.object self.raku_index args]⟩
  match r.error with
  | some error => (none, ⟨PyErr_SetObject PyExc.RuntimeError error w1.tstate, w1.trace⟩)
  | none => (r.result, w1)

/-- CPython `PyUnicode_FromString(name)` for a C string. -/
def PyUnicode_FromString (name : String) : PyObj := PyObj.str name

/-- The attribute name as `raku_object_getattr` receives it. The function is
`static` and its only use is `.tp_getattro = (getattrofunc)raku_object_getattr`
in `RakuObjectType`, so its caller is the interpreter, which passes the name
as a text object (a `PyObject *`) where the function declares a `char *`.
`text` is the attribute name the object holds; `header` is the C string a
`char *` reader finds at the object's address: the bytes of the object header
(it starts with `ob_refcnt`, the characters come later) up to the first zero
byte. -/
structure NameObject where
  header : String
  text : String

/-- The C string read through the `char *name` of `raku_object_getattr`. -/
def NameObject.asCString (name : NameObject) : String := name.header

/-- Source function `raku_object_getattr`, as the `tp_getattro` slot calls it:
`strcmp` and `PyUnicode_FromString` read the C string at `name`.
`PyObject_GenericGetAttr` belongs to the embedded runtime and is a
parameter. -/
def raku_object_getattr (raku_callbacks : RakuCallbacks)
    (PyObject_GenericGetAttr : RakuObject → PyObj → ThreadState → Option PyObj × ThreadState)
    (self : RakuObject) (name : NameObject) (w : World) : Option PyObj × World :=
  if name.asCString = "__dict__" ∨ name.asCString = "__class__" then
    let g := PyObject_GenericGetAttr self (PyUnicode_FromString name.asCString) w.tstate
    (g.1, ⟨g.2, w.trace⟩)
  else
    let args := PyObj.tuple [PyUnicode_FromString name.asCString]
    let r := raku_callbacks.call_raku_method self.raku_index "__getattr__" args w.tstate
    let w1 : World :=
      ⟨r.tstate, w.trace ++ [HostCall.method self.raku_index "__getattr__" args]⟩
    match r.error with
    | some error => (none, ⟨PyErr_SetObject PyExc.AttributeError error w1.tstate, w1.trace⟩)
    | none => (r.result, w1)

/-- A host that answers every callback with the value `v` and no error. -/
def hostReturning (v : PyObj) : RakuCallbacks where
  call_raku_object := fun _ _ ts => ⟨some v, none, ts⟩
  call_raku_method := fun _ _ _ ts => ⟨some v, none, ts⟩

/-- A host that answers every callback with `NULL` and the error value `e`. -/
def hostFailing (e : PyObj) : RakuCallbacks where
  call_raku_object := fun _ _ ts => ⟨none, some e, ts⟩
  call_raku_method := fun _ _ _ ts => ⟨none, some e, ts⟩

/-- A `PyObject_GenericGetAttr` that finds no attribute. -/
def genericGetAttrMissing (_self : RakuObject) (_name : PyObj) (ts : ThreadState) :
    Option PyObj × ThreadState :=
  (none, raiseInternal PyExc.AttributeError ts)

/-! ### Scalar extraction and the batch codec -/

/-- The C conversion of an integer to a signed integer type of `w` bits
(two's complement wrap-around). -/
def wrapSigned (w : Nat) (v : Int) : Int :=
  (v + 2 ^ (w - 1)) % 2 ^ w - 2 ^ (w - 1)

/-- Whether `v` is a value of the signed integer type of `w` bits. -/
def fitsSigned (w : Nat) (v : Int) : Bool :=
  decide (-(2 ^ (w - 1)) ≤ v ∧ v < 2 ^ (w - 1))

/-- The mathematical value of an integer object (`True` is 1, `False` is 0). -/
def intValue : PyObj → Int
  | PyObj.int n => n
  | PyObj.bool b => if b then 1 else 0
  | _ => 0

/-- CPython `PyLong_FromLong(v)`, `v` being a C `long`. -/
def PyLong_FromLong (v : Int) : PyObj := PyObj.int v

/-- CPython `PyLong_FromLongLong(v)`, `v` being a C `long long`. -/
def PyLong_FromLongLong (v : Int) : PyObj := PyObj.int v

/-- CPython `PyLong_AsLongLong(o)`: the value of an integer object when it fits a
64-bit `long long`, otherwise `-1` with `OverflowError`; `-1` with `TypeError`
for an object that is not an integer (none of the modelled types defines
`__index__`). -/
def PyLong_AsLongLong (o : PyObj) (ts : ThreadState) : Int × ThreadState :=
  if PyLong_Check o then
    if fitsSigned 64 (intValue o) then (intValue o, ts)
    else (-1, raiseInternal PyExc.OverflowError ts)
  else (-1, raiseInternal PyExc.TypeError ts)

/-- CPython `PyLong_AsLong(o)` for a C `long` of `longBits` bits: as
`PyLong_AsLongLong`, with the range of `long`. -/
def PyLong_AsLong (longBits : Nat) (o : PyObj) (ts : ThreadState) : Int × ThreadState :=
  if PyLong_Check o then
    if fitsSigned longBits (intValue o) then (intValue o, ts)
    else (-1, raiseInternal PyExc.OverflowError ts)
  else (-1, raiseInternal PyExc.TypeError ts)

/-- The constant `-1.0`, the failure value of `PyFloat_AsDouble`. -/
def Double.minusOne : Double := ⟨0xBFF0000000000000⟩

/-- CPython `PyFloat_AsDouble(o)`: the value of a float object. The helpers modelled
here call it on float objects only; for any other object the model gives the
documented failure result (`-1.0`, `TypeError`), leaving out the `__float__`
conversion CPython would try first. -/
def PyFloat_AsDouble (o : PyObj) (ts : ThreadState) : Double × ThreadState :=
  match o with
  | PyObj.float d => (d, ts)
  | _ => (Double.minusOne, raiseInternal PyExc.TypeError ts)

/-- Whether a list of code points holds a lone surrogate. -/
def hasLoneSurrogate (codes : List Nat) : Bool :=
  codes.any (fun c => decide (0xD800 ≤ c ∧ c ≤ 0xDFFF))

/-- The UTF-8 form of a text object, as the text it encodes: `none` for a
text with a lone surrogate, which UTF-8 cannot encode, and for an object that
is not a text. -/
def utf8Text : PyObj → Option String
  | PyObj.str s => some s
  | PyObj.ustr codes =>
    if hasLoneSurrogate codes then none else some (String.mk (codes.map Char.ofNat))
  | _ => none

/-- CPython `PyUnicode_AsUTF8(o)`: the UTF-8 buffer of a text object, or `NULL`
with `UnicodeEncodeError` when the text cannot be encoded (a lone surrogate);
`NULL` with `TypeError` for an object that is not a text. -/
def PyUnicode_AsUTF8 (o : PyObj) (ts : ThreadState) : Option String × ThreadState :=
  if PyUnicode_Check o then
    match utf8Text o with
    | some s => (some s, ts)
    | none => (none, raiseInternal PyExc.UnicodeEncodeError ts)
  else (none, raiseInternal PyExc.TypeError ts)

/-- CPython `PyUnicode_AsUTF8AndSize(o, &size)`: the UTF-8 buffer of a text
object and its length in bytes; `NULL` with `UnicodeEncodeError` for a text
that cannot be encoded and with `TypeError` for an object that is not a text,
`size` then being set to `-1` by the CPython versions that do so
(`sizeOnError`) and left as it was by the others. -/
def PyUnicode_AsUTF8AndSize (sizeOnError : Bool) (o : PyObj) (size : Int)
    (ts : ThreadState) : Option String × Int × ThreadState :=
  if PyUnicode_Check o then
    match utf8Text o with
    | some s => (some s, (s.utf8ByteSize : Int), ts)
    | none =>
      (none, if sizeOnError then -1 else size, raiseInternal PyExc.UnicodeEncodeError ts)
  else (none, if sizeOnError then -1 else size, raiseInternal PyExc.TypeError ts)

/-- C library `strdup(p)`: a fresh copy of the C string at `p`, that is of the
bytes before the first NUL. `strdup(NULL)` is undefined behaviour in C (in
practice the process crashes and the caller gets no result); the model has
`NULL` in its place, and `python3_batch_py_to_str_defined` tells whether a
batch reaches it. -/
def strdup (p : Option String) : Option String :=
  p.map (fun s => String.mk (s.data.takeWhile (fun c => c ≠ Char.ofNat 0)))

/-- Source function `python3_int_to_long` (python3_helper.c), `long` having `longBits` bits. -/
def python3_int_to_long (longBits : Nat) (obj : PyObj) (ts : ThreadState) :
    Int × ThreadState :=
  PyLong_AsLong longBits obj ts

/-- Source function `python3_str_to_utf8` (python3_helper.c): the returned pointer, the value
of `*size` afterwards, and the thread state. -/
def python3_str_to_utf8 (sizeOnError : Bool) (obj : PyObj) (size : Int)
    (ts : ThreadState) : Option String × Int × ThreadState :=
  PyUnicode_AsUTF8AndSize sizeOnError obj size ts

/-- Source function `python3_batch_int_to_py` (python3_batch_helper.c): `values` holds
`int64_t`, `count` is an `int32_t`; in the small-range branch the value is
converted to the `long` (of `longBits` bits) that `PyLong_FromLong` takes. -/
def python3_batch_int_to_py (longBits : Nat) (values : CArray Int) (count : Int)
    (results : CArray PyObj) : CArray PyObj :=
  forLoop count.toNat
    (fun i (results : CArray PyObj) =>
      if -5 ≤ values i ∧ values i ≤ 256 then
        results.write i (PyLong_FromLong (wrapSigned longBits (values i)))
      else
        results.write i (PyLong_FromLongLong (values i)))
    results

/-- Source function `python3_batch_py_to_int` (python3_batch_helper.c): the `results` array
and the thread state afterwards. -/
def python3_batch_py_to_int (values : CArray PyObj) (count : Int) (results : CArray Int)
    (ts : ThreadState) : CArray Int × ThreadState :=
  forLoop count.toNat
    (fun i (s : CArray Int × ThreadState) =>
      if PyLong_Check (values i) then
        let r := PyLong_AsLongLong (values i) s.2
        (s.1.write i r.1, r.2)
      else
        (s.1.write i 0, s.2))
    (results, ts)

/-- Source function `python3_batch_py_to_num` (python3_batch_helper.c); `toDouble` is the C
conversion `(double)` of a `long long`. -/
def python3_batch_py_to_num (toDouble : Int → Double) (values : CArray PyObj) (count : Int)
    (results : CArray Double) (ts : ThreadState) : CArray Double × ThreadState :=
  forLoop count.toNat
    (fun i (s : CArray Double × ThreadState) =>
      if PyFloat_Check (values i) then
        let r := PyFloat_AsDouble (values i) s.2
        (s.1.write i r.1, r.2)
      else if PyLong_Check (values i) then
        let r := PyLong_AsLongLong (values i) s.2
        (s.1.write i (toDouble r.1), r.2)
      else
        (s.1.write i Double.zero, s.2))
    (results, ts)

/-- Source function `python3_batch_py_to_str` (python3_batch_helper.c): each slot of `results`
is a `char *` to a fresh C string (`none` for `NULL`). The result of
`PyUnicode_AsUTF8` goes to `strdup` unchecked, so a text that cannot be
encoded leads to `strdup(NULL)`: see `python3_batch_py_to_str_defined`. -/
def python3_batch_py_to_str (values : CArray PyObj) (count : Int)
    (results : CArray (Option String)) (ts : ThreadState) :
    CArray (Option String) × ThreadState :=
  forLoop count.toNat
    (fun i (s : CArray (Option String) × ThreadState) =>
      if PyUnicode_Check (values i) then
        let str := PyUnicode_AsUTF8 (values i) s.2
        (s.1.write i (strdup str.1), str.2)
      else
        (s.1.write i (strdup (some "")), s.2))
    (results, ts)

/-- Whether `python3_batch_py_to_str(values, count, ..)` stays within defined
behaviour: `PyUnicode_AsUTF8` gives a buffer for every text object among
`values[0..count)`, so that `strdup` is never called on `NULL`. -/
def python3_batch_py_to_str_defined (values : CArray PyObj) (count : Int) : Bool :=
  (List.range count.toNat).all
    (fun i => !PyUnicode_Check (values i) || (utf8Text (values i)).isSome)

/-! ### Homogeneity probes (python3_batch_helper.c) -/

/-- A counted loop whose body may `return`: `body i` is `some r` when
iteration `i` returns `r`; the result is the first return met in the order
`0, 1, ..., n - 1`, or `none` when the loop runs to its end. -/
def firstReturn {ρ : Type} : (n : Nat) → (Fin n → Option ρ) → Option ρ
  | 0, _ => none
  | n + 1, body =>
    match body 0 with
    | some r => some r
    | none => firstReturn n (fun i => body i.succ)

/-- The `ob_item` vector of a list object (empty for any other object). -/
def listItems : PyObj → List PyObj
  | PyObj.list items => items
  | _ => []

/-- CPython `PyList_Size(list)`: the length of a list object, `-1` for any other
object. -/
def PyList_Size (list : PyObj) : Int :=
  if PyList_Check list then ((listItems list).length : Int) else -1

/-- CPython `PyList_GetItem(list, i)` for an index `0 <= i < PyList_Size(list)`, the
only way the helpers call it: the borrowed item in slot `i`. -/
def PyList_GetItem (list : PyObj) (i : Fin (PyList_Size list).toNat) : PyObj :=
  (listItems list).get ⟨i.val, by
    have h := i.isLt
    unfold PyList_Size at h
    split at h
    · simpa using h
    · simp at h⟩

/-- Source function `python3_list_is_homogeneous_int` (python3_batch_helper.c). -/
def python3_list_is_homogeneous_int (list : PyObj) : Int :=
  if !PyList_Check list then 0
  else
    let size := PyList_Size list
    match firstReturn size.toNat (fun i =>
        let item := PyList_GetItem list i
        if !PyLong_Check item then some 0 else none) with
    | some r => r
    | none => 1

/-- Source function `python3_list_is_homogeneous_float` (python3_batch_helper.c). -/
def python3_list_is_homogeneous_float (list : PyObj) : Int :=
  if !PyList_Check list then 0
  else
    let size := PyList_Size list
    match firstReturn size.toNat (fun i =>
        let item := PyList_GetItem list i
        if !PyFloat_Check item && !PyLong_Check item then some 0 else none) with
    | some r => r
    | none => 1

/-! ### The remaining batch converters, and what a batch may write -/

/-- CPython `PyFloat_FromDouble(v)`. -/
def PyFloat_FromDouble (v : Double) : PyObj := PyObj.float v

/-- Source function `python3_batch_num_to_py` (python3_batch_helper.c). -/
def python3_batch_num_to_py (values : CArray Double) (count : Int)
    (results : CArray PyObj) : CArray PyObj :=
  forLoop count.toNat
    (fun i (results : CArray PyObj) => results.write i (PyFloat_FromDouble (values i)))
    results

/-- Source function `python3_batch_str_to_py` (python3_batch_helper.c):
`values` holds C strings. -/
def python3_batch_str_to_py (values : CArray String) (count : Int)
    (results : CArray PyObj) : CArray PyObj :=
  forLoop count.toNat
    (fun i (results : CArray PyObj) => results.write i (PyUnicode_FromString (values i)))
    results

/-- The frame of a count-taking converter `conv values count results`: a slot
at an index `>= count` keeps its content (so nothing changes when
`count <= 0`), and the content of a slot `i < count` after the call is
determined by `values[i]` alone: two calls whose inputs agree in slot `i`
leave the same value there, whatever the other elements, the earlier content
of `results` and the counts are. -/
def WritesSlotsBelowCount {α β : Type}
    (conv : CArray α → Int → CArray β → CArray β) : Prop :=
  (∀ values count results j, count.toNat ≤ j → conv values count results j = results j) ∧
  (∀ values count results, count ≤ 0 → ∀ j, conv values count results j = results j) ∧
  (∀ values values2 count count2 results results2 i,
    i < count.toNat → i < count2.toNat → values i = values2 i →
      conv values count results i = conv values2 count2 results2 i)

/-! ### Reading a list into a pointer array (python3_batch_helper.c) -/

/-- The object behind a handle, as far as the collection codec looks at it: a
list or tuple with its item vector, or an object of some other type. -/
inductive HeapObject
  | seq (o : PySeqObject)
  | other

/-- CPython macro `PyList_Check` on the object behind a handle. -/
def ByRef.PyList_Check : HeapObject → Bool
  | HeapObject.seq o => decide (o.kind = SeqKind.list)
  | HeapObject.other => false

/-- CPython `PyList_Size(list)` on the object behind a handle: the number of
slots of a list, `-1` for any other object. -/
def ByRef.PyList_Size : HeapObject → Int
  | HeapObject.seq o => if o.kind = SeqKind.list then (o.ob_item.length : Int) else -1
  | HeapObject.other => -1

/-- CPython `PyList_GetItem(list, i)` on the object behind a handle: the
pointer in slot `i`, borrowed (no reference count changes); `NULL` outside the
list (CPython also raises `IndexError` there, which the helper never
triggers, its index staying below `PyList_Size`). -/
def ByRef.PyList_GetItem : HeapObject → Nat → Option Handle
  | HeapObject.seq o, i => o.ob_item.getD i none
  | HeapObject.other, _ => none

/-- Source function `python3_list_to_pointer_array` (python3_batch_helper.c):
the `results` array afterwards, and the reference counts, which no statement of
the function touches. -/
def python3_list_to_pointer_array (list : HeapObject) (results : CArray (Option Handle))
    (rc : RefCounts) : CArray (Option Handle) × RefCounts :=
  if !ByRef.PyList_Check list then (results, rc)
  else
    let size := ByRef.PyList_Size list
    (forLoop size.toNat
      (fun i (results : CArray (Option Handle)) =>
        results.write i (ByRef.PyList_GetItem list i))
      results, rc)

/-! ### The error bridge (python3_helper.c) -/

/-- An exception as three object pointers (type, value, traceback), each
possibly `NULL`: the error indicator of the embedded runtime, or the three
variables `PyErr_Fetch` fills. No exception is pending when `type` is `NULL`. -/
structure ExcTriple where
  type : Option Handle
  value : Option Handle
  traceback : Option Handle
  deriving DecidableEq, Repr

/-- The `PythonError` struct. -/
structure PythonError where
  type : Option Handle
  value : Option Handle
  traceback : Option Handle
  formatted_exception : Option String
  deriving DecidableEq, Repr

/-- The facilities of the embedded runtime `python3_fetch_error` calls, each
with the result it gives (`none` for `NULL`): the `Py_None` object, exception
normalisation, module import, attribute lookup, the call of a callable on an
argument tuple, and `PyUnicode_Join` (the text of the joined string). -/
structure ErrorRuntime where
  Py_None : Handle
  PyErr_NormalizeException : ExcTriple → ExcTriple
  PyImport_ImportModule : String → Option Handle
  PyObject_GetAttrString : Handle → String → Option Handle
  PyObject_CallObject : Handle → List Handle → Option Handle
  PyUnicode_Join : String → Handle → Option String

/-- CPython `PyErr_Fetch`: the three parts of the pending exception, all `NULL`
when none is pending. -/
def PyErr_Fetch (indicator : ExcTriple) : ExcTriple :=
  if indicator.type = none then ⟨none, none, none⟩ else indicator

/-- Source function `python3_fetch_error`: the struct `*error` after the call,
from the error indicator and the struct before it. `PyUnicode_AsUTF8` of the
joined string is its text. -/
def python3_fetch_error (rt : ErrorRuntime) (indicator : ExcTriple) (error : PythonError) :
    PythonError :=
  let f := PyErr_Fetch indicator
  let error : PythonError := { error with type := f.type, value := f.value,
                                          traceback := f.traceback }
  if error.type = none then
    { error with formatted_exception := none }
  else
    let n := rt.PyErr_NormalizeException ⟨error.type, error.value, error.traceback⟩
    let error : PythonError := { error with type := n.type, value := n.value,
                                            traceback := n.traceback }
    match rt.PyImport_ImportModule "traceback" with
    | none => error
    | some tb_module =>
      match rt.PyObject_GetAttrString tb_module "format_exception" with
      | none => error
      | some format_func =>
        let args := [error.type.getD rt.Py_None, error.value.getD rt.Py_None,
          error.traceback.getD rt.Py_None]
        match rt.PyObject_CallObject format_func args with
        | none => error
        | some tb_list =>
          match rt.PyUnicode_Join "" tb_list with
          | none => error
          | some tb_str => { error with formatted_exception := strdup (some tb_str) }

/-- A runtime in which the `traceback` module cannot be imported. -/
def runtimeWithoutTraceback : ErrorRuntime where
  Py_None := 0
  PyErr_NormalizeException := fun t => t
  PyImport_ImportModule := fun _ => none
  PyObject_GetAttrString := fun _ _ => none
  PyObject_CallObject := fun _ _ => none
  PyUnicode_Join := fun _ _ => none

/-- A runtime in which every step of the rendering works and yields `text`. -/
def runtimeRendering (text : String) : ErrorRuntime where
  Py_None := 0
  PyErr_NormalizeException := fun t => t
  PyImport_ImportModule := fun _ => some 1
  PyObject_GetAttrString := fun _ _ => some 2
  PyObject_CallObject := fun _ _ => some 3
  PyUnicode_Join := fun _ _ => some text

/-! ### Initialization (python3_helper.c) -/

/-- The registration state of the bridge: the static `raku_callbacks` (`none`
while it still holds its zero initialiser), whether the embedded runtime is
running (`Py_IsInitialized`), the modules appended to the runtime's table of
built-in modules, and whether `PyDateTime_IMPORT` has set the datetime API. -/
structure BridgeState where
  raku_callbacks : Option RakuCallbacks
  initialized : Bool
  inittab : List String
  datetime_api : Bool

/-- Source function `python3_init_python`: the return code and the state
afterwards. `startOk` tells whether `Py_InitializeFromConfig` succeeds (its
status is not an exception), `datetimeOk` whether `PyDateTime_IMPORT` finds
the datetime API; `PyImport_AppendInittab` is taken to succeed. -/
def python3_init_python (startOk datetimeOk : Bool) (callbacks : RakuCallbacks)
    (s : BridgeState) : Int × BridgeState :=
  let s : BridgeState := { s with raku_callbacks := some callbacks }
  if s.initialized then
    (0, { s with datetime_api := datetimeOk })
  else
    let s : BridgeState := { s with inittab := s.inittab ++ ["python3"] }
    if !startOk then
      (-1, s)
    else
      (0, { s with initialized := true, datetime_api := datetimeOk })

/-! ### The scratch pool (python3_batch_helper.c) -/

/-- The number of values of `size_t` (64 bits): arithmetic on `size_t` is
taken modulo it. -/
def SIZE_MODULUS : Nat := 2 ^ 64

/-- The `MemoryPool` struct: the base address of the block (`none` for
`NULL`), its size and the number of bytes handed out. -/
structure MemoryPool where
  memory : Option Nat
  size : Nat
  used : Nat
  deriving DecidableEq, Repr

/-- The static initialiser `{NULL, 0, 0}` of `batch_pool`. -/
def batch_pool_initial : MemoryPool := ⟨none, 0, 0⟩

/-- A pointer into the pool: the base address of the block it was computed
from and the offset `(char*)memory + offset`. -/
structure PoolPtr where
  base : Option Nat
  offset : Nat
  deriving DecidableEq, Repr

/-- Source function `batch_pool_alloc`: the returned pointer (`none` for the
`NULL` returned when `realloc` fails) and the pool afterwards.
`reallocResult` is what `realloc` returns if it is called. -/
def batch_pool_alloc (reallocResult : Option Nat) (size : Nat) (batch_pool : MemoryPool) :
    Option PoolPtr × MemoryPool :=
  let grown : Option MemoryPool :=
    if (batch_pool.used + size) % SIZE_MODULUS > batch_pool.size then
      let new_size := (batch_pool.size * 2) % SIZE_MODULUS
      let new_size :=
        if new_size < (size + batch_pool.used) % SIZE_MODULUS then
          (size + batch_pool.used) % SIZE_MODULUS
        else new_size
      match reallocResult with
      | none => none
      | some new_memory => some { batch_pool with memory := some new_memory, size := new_size }
    else some batch_pool
  match grown with
  | none => (none, batch_pool)
  | some pool =>
    (some ⟨pool.memory, pool.used⟩, { pool with used := (pool.used + size) % SIZE_MODULUS })

/-- Source function `batch_pool_reset`. -/
def batch_pool_reset (batch_pool : MemoryPool) : MemoryPool :=
  { batch_pool with used := 0 }

/-- Source function `batch_pool_free`. -/
def batch_pool_free (_batch_pool : MemoryPool) : MemoryPool :=
  ⟨none, 0, 0⟩

/-- One call on the pool; an allocation carries the outcome `realloc` would
have. -/
inductive PoolOp
  | alloc (size : Nat) (reallocResult : Option Nat)
  | reset
  | free
  deriving DecidableEq, Repr

/-- The pool after one call. -/
def PoolOp.apply : PoolOp → MemoryPool → MemoryPool
  | PoolOp.alloc size r, pool => (batch_pool_alloc r size pool).2
  | PoolOp.reset, pool => batch_pool_reset pool
  | PoolOp.free, pool => batch_pool_free pool

/-- The pool after a sequence of calls. -/
def runPool (ops : List PoolOp) (pool : MemoryPool) : MemoryPool :=
  ops.foldl (fun p op => op.apply p) pool

/-- The offset ranges `(offset, size)` of the successful allocations of a run
of `batch_pool_alloc` calls, in the order of the calls. -/
def allocRanges : List (Nat × Option Nat) → MemoryPool → List (Nat × Nat)
  | [], _ => []
  | (size, r) :: rest, pool =>
    match batch_pool_alloc r size pool with
    | (some p, pool1) => (p.offset, size) :: allocRanges rest pool1
    | (none, pool1) => allocRanges rest pool1

/-- The offset ranges of the successful allocations made since the last
`batch_pool_reset` of a sequence of calls (`acc` holds those made so far). -/
def rangesSinceReset : List PoolOp → MemoryPool → List (Nat × Nat) → List (Nat × Nat)
  | [], _, acc => acc
  | PoolOp.alloc size r :: rest, pool, acc =>
    match batch_pool_alloc r size pool with
    | (some p, pool1) => rangesSinceReset rest pool1 (acc ++ [(p.offset, size)])
    | (none, pool1) => rangesSinceReset rest pool1 acc
  | PoolOp.reset :: rest, pool, _ => rangesSinceReset rest (batch_pool_reset pool) []
  | PoolOp.free :: rest, pool, acc => rangesSinceReset rest (batch_pool_free pool) acc

/-- Two offset ranges `[offset, offset + size)` have no offset in common. -/
def RangesDisjoint (a b : Nat × Nat) : Prop :=
  ∀ x, ¬ (a.1 ≤ x ∧ x < a.1 + a.2 ∧ b.1 ≤ x ∧ x < b.1 + b.2)

/-! ## Theorems -/

/-! ### The sequence builders -/

theorem forLoop_succ {σ : Type} (n : Nat) (body : Nat → σ → σ) (s : σ) :
    forLoop (n + 1) body s = body n (forLoop n body s) := rfl

theorem occurrences_succ (values : CArray Handle) (n : Nat) (h : Handle) :
    occurrences values (n + 1) h
      = occurrences values n h + (if values n = h then 1 else 0) := by
  simp [occurrences, List.range_succ, List.countP_append, List.countP_cons]

theorem fillLoop_kind (values : CArray Handle) (n : Nat) (s : PySeqObject × RefCounts) :
    (fillLoop values n s).1.kind = s.1.kind := by
  induction n with
  | zero => rfl
  | succ n ih => simpa [fillLoop, forLoop_succ] using ih

theorem fillLoop_length (values : CArray Handle) (n : Nat) (s : PySeqObject × RefCounts) :
    (fillLoop values n s).1.ob_item.length = s.1.ob_item.length := by
  induction n with
  | zero => rfl
  | succ n ih => simpa [fillLoop, forLoop_succ] using ih

theorem fillLoop_refcnt (values : CArray Handle) (n : Nat) (s : PySeqObject × RefCounts)
    (h : Handle) :
    (fillLoop values n s).2 h = s.2 h + (occurrences values n h : Int) := by
  induction n with
  | zero => simp [fillLoop, forLoop, occurrences]
  | succ n ih =>
    have step : (fillLoop values (n + 1) s).2
        = Py_INCREF (values n) (fillLoop values n s).2 := rfl
    rw [step, occurrences_succ]
    by_cases hv : values n = h
    · subst hv
      simp [Py_INCREF, ih]
      ring
    · have hne : h ≠ values n := fun e => hv e.symm
      simp [Py_INCREF, Function.update_noteq hne, ih, hv]

theorem fillLoop_getElem? (values : CArray Handle) (n : Nat) (s : PySeqObject × RefCounts)
    (i : Nat) :
    (fillLoop values n s).1.ob_item[i]?
      = if i < n ∧ i < s.1.ob_item.length then some (some (values i))
        else s.1.ob_item[i]? := by
  induction n with
  | zero => simp [fillLoop, forLoop]
  | succ n ih =>
    have step : (fillLoop values (n + 1) s).1.ob_item
        = (fillLoop values n s).1.ob_item.set n (some (values n)) := rfl
    rw [step, List.getElem?_set, fillLoop_length, ih]
    by_cases hni : n = i
    · subst hni
      by_cases hl : n < s.1.ob_item.length
      · simp [hl]
      · simp [hl]
        exact Nat.le_of_not_lt hl
    · have h1 : (i < n + 1) ↔ (i < n) := by omega
      simp [hni, h1]

theorem fillLoop_ob_item (values : CArray Handle) (n : Nat) (k : SeqKind) (rc : RefCounts) :
    (fillLoop values n (⟨k, List.replicate n none⟩, rc)).1.ob_item
      = (List.range n).map (fun i => some (values i)) := by
  apply List.ext_getElem?
  intro i
  rw [fillLoop_getElem?]
  by_cases hi : i < n
  · simp [hi, List.getElem?_range hi]
  · have hle : n ≤ i := Nat.le_of_not_lt hi
    simp [hi, List.getElem?_eq_none, hle]

theorem Py_DECREF_apply (h k : Handle) (rc : RefCounts) :
    Py_DECREF h rc k = if k = h then rc h - 1 else rc k := by
  unfold Py_DECREF
  by_cases e : k = h
  · subst e; simp
  · simp [Function.update_noteq e, e]

theorem release_map_some (values : CArray Handle) (n : Nat) (rc : RefCounts) (h : Handle) :
    ((List.range n).map (fun i => some (values i))).foldl (fun r p => Py_XDECREF p r) rc h
      = rc h - (occurrences values n h : Int) := by
  induction n with
  | zero => simp [occurrences]
  | succ n ih =>
    rw [List.range_succ, List.map_append, List.foldl_append, occurrences_succ]
    simp only [List.map_cons, List.map_nil, List.foldl_cons, List.foldl_nil]
    rw [show ∀ r, Py_XDECREF (some (values n)) r = Py_DECREF (values n) r from fun _ => rfl,
      Py_DECREF_apply]
    by_cases hv : values n = h
    · subst hv
      simp only [if_true, ih]
      push_cast
      ring
    · have hne : h ≠ values n := fun e => hv e.symm
      simp [hne, hv, ih]

theorem occurrences_eq_zero (values : CArray Handle) (n : Nat) (h : Handle)
    (hne : ∀ j, j < n → values j ≠ h) : occurrences values n h = 0 := by
  induction n with
  | zero => rfl
  | succ n ih =>
    rw [occurrences_succ, ih (fun j hj => hne j (Nat.lt_succ_of_lt hj))]
    simp [hne n (Nat.lt_succ_self n)]

theorem occurrences_eq_one (values : CArray Handle) (n : Nat)
    (hinj : ∀ i j, i < n → j < n → values i = values j → i = j) (i : Nat) (hi : i < n) :
    occurrences values n (values i) = 1 := by
  induction n with
  | zero => omega
  | succ n ih =>
    rw [occurrences_succ]
    have hinj' : ∀ a b, a < n → b < n → values a = values b → a = b :=
      fun a b ha hb => hinj a b (Nat.lt_succ_of_lt ha) (Nat.lt_succ_of_lt hb)
    by_cases hin : i = n
    · subst hin
      have hz : occurrences values i (values i) = 0 :=
        occurrences_eq_zero values i (values i) (fun j hj e =>
          absurd (hinj j i (Nat.lt_succ_of_lt hj) hi e) (Nat.ne_of_lt hj))
      simp [hz]
    · have hlt : i < n := by omega
      have hne : values n ≠ values i := fun e =>
        hin (hinj n i (Nat.lt_succ_self n) hi e).symm
      simp [ih hinj' hlt, hne]

theorem fillLoop_new (values : CArray Handle) (n : Nat) (k : SeqKind) (rc : RefCounts) :
    fillLoop values n (⟨k, List.replicate n none⟩, rc)
      = (⟨k, (List.range n).map (fun i => some (values i))⟩,
          fun h => rc h + (occurrences values n h : Int)) := by
  have h1 := fillLoop_kind values n (⟨k, List.replicate n none⟩, rc)
  have h2 := fillLoop_ob_item values n k rc
  have h3 : (fillLoop values n (⟨k, List.replicate n none⟩, rc)).2
      = fun h => rc h + (occurrences values n h : Int) :=
    funext (fun h => fillLoop_refcnt values n _ h)
  generalize fillLoop values n (⟨k, List.replicate n none⟩, rc) = r at h1 h2 h3
  obtain ⟨⟨rk, ri⟩, rr⟩ := r
  simp only at h1 h2 h3
  subst h1 h2 h3
  rfl

theorem python3_list_from_array_eq (items : CArray Handle) (size : Int) (rc : RefCounts)
    (hsize : 0 ≤ size) :
    python3_list_from_array true items size rc
      = (some ⟨SeqKind.list, (List.range size.toNat).map (fun i => some (items i))⟩,
          fun h => rc h + (occurrences items size.toNat h : Int)) := by
  have hn : ¬ size < 0 := not_lt.mpr hsize
  have := fillLoop_new items size.toNat SeqKind.list rc
  unfold fillLoop at this
  simp only [python3_list_from_array, PyList_New, hn, if_false, if_true, PyList_SET_ITEM, this]

theorem python3_tuple_from_array_eq (items : CArray Handle) (size : Int) (rc : RefCounts)
    (hsize : 0 ≤ size) :
    python3_tuple_from_array true items size rc
      = (some ⟨SeqKind.tuple, (List.range size.toNat).map (fun i => some (items i))⟩,
          fun h => rc h + (occurrences items size.toNat h : Int)) := by
  have hn : ¬ size < 0 := not_lt.mpr hsize
  have := fillLoop_new items size.toNat SeqKind.tuple rc
  unfold fillLoop at this
  simp only [python3_tuple_from_array, PyTuple_New, hn, if_false, if_true, PyTuple_SET_ITEM, this]

theorem python3_create_list_from_pointers_eq (values : CArray Handle) (count : Int)
    (rc : RefCounts) (hcount : 0 ≤ count) :
    python3_create_list_from_pointers true values count rc
      = (some ⟨SeqKind.list, (List.range count.toNat).map (fun i => some (values i))⟩,
          fun h => rc h + (occurrences values count.toNat h : Int)) := by
  have hn : ¬ count < 0 := not_lt.mpr hcount
  have := fillLoop_new values count.toNat SeqKind.list rc
  unfold fillLoop at this
  simp only [python3_create_list_from_pointers, PyList_New, hn, if_false, if_true,
    PyList_SET_ITEM, this]

theorem python3_create_tuple_from_pointers_eq (values : CArray Handle) (count : Int)
    (rc : RefCounts) (hcount : 0 ≤ count) :
    python3_create_tuple_from_pointers true values count rc
      = (some ⟨SeqKind.tuple, (List.range count.toNat).map (fun i => some (values i))⟩,
          fun h => rc h + (occurrences values count.toNat h : Int)) := by
  have hn : ¬ count < 0 := not_lt.mpr hcount
  have := fillLoop_new values count.toNat SeqKind.tuple rc
  unfold fillLoop at this
  simp only [python3_create_tuple_from_pointers, PyTuple_New, hn, if_false, if_true,
    PyTuple_SET_ITEM, this]

theorem getElem?_map_range_some (values : CArray Handle) (n i : Nat) (hi : i < n) :
    ((List.range n).map (fun i => some (values i)))[i]? = some (some (values i)) := by
  simp [List.getElem?_range hi]

/-- C1 (as stated, refuted): on two freshly created handles `100` and `101`,
each with reference count 1, `python3_list_from_array` and
`python3_tuple_from_array` do return a container holding the two handles, but
each handle's count is 2 after the call, not 1, and releasing the container
alone leaves it at 1, not 0. -/
theorem from_array_builders_do_not_steal :
    (python3_list_from_array true (fun i => 100 + i) 2 (fun _ => 1)).1
        = some ⟨SeqKind.list, [some 100, some 101]⟩ ∧
    (python3_tuple_from_array true (fun i => 100 + i) 2 (fun _ => 1)).1
        = some ⟨SeqKind.tuple, [some 100, some 101]⟩ ∧
    (python3_list_from_array true (fun i => 100 + i) 2 (fun _ => 1)).2 100 = 2 ∧
    (python3_tuple_from_array true (fun i => 100 + i) 2 (fun _ => 1)).2 100 = 2 ∧
    ¬ (python3_list_from_array true (fun i => 100 + i) 2 (fun _ => 1)).2 100 = 1 ∧
    ¬ (python3_tuple_from_array true (fun i => 100 + i) 2 (fun _ => 1)).2 100 = 1 ∧
    releaseContainer ⟨SeqKind.list, [some 100, some 101]⟩
        (python3_list_from_array true (fun i => 100 + i) 2 (fun _ => 1)).2 100 = 1 ∧
    ¬ releaseContainer ⟨SeqKind.list, [some 100, some 101]⟩
        (python3_list_from_array true (fun i => 100 + i) 2 (fun _ => 1)).2 100 = 0 := by
  decide

/-- C1 (amended): for every `N >= 0` and every array of `N` distinct handles
each with reference count 1, `python3_list_from_array` and
`python3_tuple_from_array` (allocation succeeding) return a list, resp. tuple,
of length `N` whose slot `i` holds `items[i]`; each builder adds one
reference, so every original handle's count is 2 after the call, and releasing
the container alone brings every handle back to 1 (the caller's own
reference), not to zero. -/
theorem from_array_builders_add_one_reference (items : CArray Handle) (size : Int)
    (rc : RefCounts) (hsize : 0 ≤ size)
    (hfresh : ∀ i j, i < size.toNat → j < size.toNat → items i = items j → i = j)
    (hone : ∀ i, i < size.toNat → rc (items i) = 1) :
    ∃ l t : PySeqObject,
      (python3_list_from_array true items size rc).1 = some l ∧
      (python3_tuple_from_array true items size rc).1 = some t ∧
      l.kind = SeqKind.list ∧ t.kind = SeqKind.tuple ∧
      l.ob_item.length = size.toNat ∧ t.ob_item.length = size.toNat ∧
      (∀ i, i < size.toNat →
        l.ob_item[i]? = some (some (items i)) ∧ t.ob_item[i]? = some (some (items i))) ∧
      (∀ i, i < size.toNat →
        (python3_list_from_array true items size rc).2 (items i) = 2 ∧
        (python3_tuple_from_array true items size rc).2 (items i) = 2) ∧
      (∀ i, i < size.toNat →
        releaseContainer l (python3_list_from_array true items size rc).2 (items i) = 1 ∧
        releaseContainer t (python3_tuple_from_array true items size rc).2 (items i) = 1) := by
  rw [python3_list_from_array_eq items size rc hsize,
    python3_tuple_from_array_eq items size rc hsize]
  refine ⟨_, _, rfl, rfl, rfl, rfl, by simp, by simp, ?_, ?_, ?_⟩
  · intro i hi
    exact ⟨getElem?_map_range_some items _ i hi, getElem?_map_range_some items _ i hi⟩
  · intro i hi
    simp only [occurrences_eq_one items _ hfresh i hi, hone i hi]
    decide
  · intro i hi
    simp only [releaseContainer, release_map_some, occurrences_eq_one items _ hfresh i hi,
      hone i hi]
    decide

/-- Witness for C1 (amended): three distinct handles `100, 101, 102`, each
with count 1. -/
theorem from_array_builders_add_one_reference_witness :
    (0 : Int) ≤ 3 ∧
    ∃ l t : PySeqObject,
      (python3_list_from_array true (fun i => 100 + i) 3 (fun _ => 1)).1 = some l ∧
      (python3_tuple_from_array true (fun i => 100 + i) 3 (fun _ => 1)).1 = some t ∧
      l.kind = SeqKind.list ∧ t.kind = SeqKind.tuple ∧
      l.ob_item.length = (3 : Int).toNat ∧ t.ob_item.length = (3 : Int).toNat ∧
      (∀ i, i < (3 : Int).toNat →
        l.ob_item[i]? = some (some (100 + i)) ∧ t.ob_item[i]? = some (some (100 + i))) ∧
      (∀ i, i < (3 : Int).toNat →
        (python3_list_from_array true (fun i => 100 + i) 3 (fun _ => 1)).2 (100 + i) = 2 ∧
        (python3_tuple_from_array true (fun i => 100 + i) 3 (fun _ => 1)).2 (100 + i) = 2) ∧
      (∀ i, i < (3 : Int).toNat →
        releaseContainer l
          (python3_list_from_array true (fun i => 100 + i) 3 (fun _ => 1)).2 (100 + i) = 1 ∧
        releaseContainer t
          (python3_tuple_from_array true (fun i => 100 + i) 3 (fun _ => 1)).2 (100 + i) = 1) :=
  ⟨by decide,
    from_array_builders_add_one_reference (fun i => 100 + i) 3 (fun _ => 1) (by decide)
      (fun i j _ _ e => Nat.add_left_cancel e) (fun _ _ => rfl)⟩

/-- C2: for every `count >= 0` and every array `values`,
`python3_create_list_from_pointers` and `python3_create_tuple_from_pointers`
(allocation succeeding) return a list, resp. tuple, of length `count` whose
slot `i` is `values[i]` for every `i < count`; the reference count of every
handle grows by exactly the number of its occurrences in `values[0..count)`,
so a handle that does not occur keeps its count. -/
theorem create_from_pointers_increfs_each_occurrence (values : CArray Handle) (count : Int)
    (rc : RefCounts) (hcount : 0 ≤ count) :
    ∃ l t : PySeqObject,
      (python3_create_list_from_pointers true values count rc).1 = some l ∧
      (python3_create_tuple_from_pointers true values count rc).1 = some t ∧
      l.kind = SeqKind.list ∧ t.kind = SeqKind.tuple ∧
      l.ob_item.length = count.toNat ∧ t.ob_item.length = count.toNat ∧
      (∀ i, i < count.toNat →
        l.ob_item[i]? = some (some (values i)) ∧ t.ob_item[i]? = some (some (values i))) ∧
      (∀ h,
        (python3_create_list_from_pointers true values count rc).2 h
          = rc h + (occurrences values count.toNat h : Int) ∧
        (python3_create_tuple_from_pointers true values count rc).2 h
          = rc h + (occurrences values count.toNat h : Int)) ∧
      (∀ h, (∀ i, i < count.toNat → values i ≠ h) →
        (python3_create_list_from_pointers true values count rc).2 h = rc h ∧
        (python3_create_tuple_from_pointers true values count rc).2 h = rc h) := by
  rw [python3_create_list_from_pointers_eq values count rc hcount,
    python3_create_tuple_from_pointers_eq values count rc hcount]
  refine ⟨_, _, rfl, rfl, rfl, rfl, by simp, by simp, ?_, ?_, ?_⟩
  · intro i hi
    exact ⟨getElem?_map_range_some values _ i hi, getElem?_map_range_some values _ i hi⟩
  · intro h
    exact ⟨rfl, rfl⟩
  · intro h hne
    simp [occurrences_eq_zero values _ h hne]

/-- Witness for C2: the array `[7, 8, 7]`, in which handle `7` occurs twice:
its count goes from 1 to 3, that of `8` from 1 to 2, and `9` keeps 1. -/
theorem create_from_pointers_increfs_each_occurrence_witness :
    (0 : Int) ≤ 3 ∧
    (python3_create_list_from_pointers true (fun i => [7, 8, 7].getD i 0) 3 (fun _ => 1)).1
      = some ⟨SeqKind.list, [some 7, some 8, some 7]⟩ ∧
    (python3_create_list_from_pointers true (fun i => [7, 8, 7].getD i 0) 3 (fun _ => 1)).2 7
      = 3 ∧
    (python3_create_tuple_from_pointers true (fun i => [7, 8, 7].getD i 0) 3 (fun _ => 1)).2 8
      = 2 ∧
    (python3_create_tuple_from_pointers true (fun i => [7, 8, 7].getD i 0) 3 (fun _ => 1)).2 9
      = 1 := by
  have h := create_from_pointers_increfs_each_occurrence
    (fun i => [7, 8, 7].getD i 0) 3 (fun _ => 1) (by decide)
  obtain ⟨l, t, hl, ht, _, _, _, _, _, hrc, _⟩ := h
  refine ⟨by decide, by decide, ?_, ?_, ?_⟩
  · rw [(hrc 7).1]; decide
  · rw [(hrc 8).2]; decide
  · rw [(hrc 9).2]; decide

/-! ### The callback trampoline -/

theorem raku_object_call_error (cb : RakuCallbacks) (self : RakuObject) (args : PyObj)
    (kwds : Option PyObj) (w : World) (e : PyObj)
    (he : (cb.call_raku_object self.raku_index args w.tstate).error = some e) :
    raku_object_call cb self args kwds w
      = (none, ⟨⟨some ⟨PyExc.RuntimeError, some e⟩⟩,
          w.trace ++ [HostCall.object self.raku_index args]⟩) := by
  simp only [raku_object_call, he, PyErr_SetObject]

theorem raku_object_call_ok (cb : RakuCallbacks) (self : RakuObject) (args : PyObj)
    (kwds : Option PyObj) (w : World)
    (he : (cb.call_raku_object self.raku_index args w.tstate).error = none) :
    raku_object_call cb self args kwds w
      = ((cb.call_raku_object self.raku_index args w.tstate).result,
          ⟨(cb.call_raku_object self.raku_index args w.tstate).tstate,
            w.trace ++ [HostCall.object self.raku_index args]⟩) := by
  simp only [raku_object_call, he]

theorem raku_object_call_trace (cb : RakuCallbacks) (self : RakuObject) (args : PyObj)
    (kwds : Option PyObj) (w : World) :
    (raku_object_call cb self args kwds w).2.trace
      = w.trace ++ [HostCall.object self.raku_index args] := by
  cases he : (cb.call_raku_object self.raku_index args w.tstate).error with
  | none => rw [raku_object_call_ok cb self args kwds w he]
  | some e => rw [raku_object_call_error cb self args kwds w e he]

/-- C3: for every wrapped object and every argument tuple, `raku_object_call`
invokes the registered object-call function exactly once, with the object's
index and `args` (the record of host calls grows by that one entry). If the
function sets an error value, the trampoline returns no result and a
`RuntimeError` whose payload is that error value is pending; if it sets no
error, the trampoline returns exactly the function's result and leaves the
thread state as the function left it (it raises nothing itself). -/
theorem raku_object_call_forwards_once (cb : RakuCallbacks) (self : RakuObject)
    (args : PyObj) (kwds : Option PyObj) (w : World) :
    (raku_object_call cb self args kwds w).2.trace
        = w.trace ++ [HostCall.object self.raku_index args] ∧
    (∀ e, (cb.call_raku_object self.raku_index args w.tstate).error = some e →
      (raku_object_call cb self args kwds w).1 = none ∧
      (raku_object_call cb self args kwds w).2.tstate.curexc
        = some ⟨PyExc.RuntimeError, some e⟩) ∧
    ((cb.call_raku_object self.raku_index args w.tstate).error = none →
      (raku_object_call cb self args kwds w).1
        = (cb.call_raku_object self.raku_index args w.tstate).result ∧
      (raku_object_call cb self args kwds w).2.tstate
        = (cb.call_raku_object self.raku_index args w.tstate).tstate) := by
  refine ⟨raku_object_call_trace cb self args kwds w, ?_, ?_⟩
  · intro e he
    rw [raku_object_call_error cb self args kwds w e he]
    exact ⟨rfl, rfl⟩
  · intro he
    rw [raku_object_call_ok cb self args kwds w he]
    exact ⟨rfl, rfl⟩

/-- Witness for C3: the object bound to index 7 called with `(1, 2)`: a host
returning `3` gives the result `3` with nothing pending, a host reporting
`"boom"` gives no result and a pending `RuntimeError("boom")`. -/
theorem raku_object_call_forwards_once_witness :
    ((raku_object_call (hostReturning (PyObj.int 3)) ⟨7⟩
        (PyObj.tuple [PyObj.int 1, PyObj.int 2]) none ⟨⟨none⟩, []⟩).1 = some (PyObj.int 3) ∧
      (raku_object_call (hostReturning (PyObj.int 3)) ⟨7⟩
        (PyObj.tuple [PyObj.int 1, PyObj.int 2]) none ⟨⟨none⟩, []⟩).2.tstate = ⟨none⟩) ∧
    ((raku_object_call (hostFailing (PyObj.str "boom")) ⟨7⟩
        (PyObj.tuple [PyObj.int 1, PyObj.int 2]) none ⟨⟨none⟩, []⟩).1 = none ∧
      (raku_object_call (hostFailing (PyObj.str "boom")) ⟨7⟩
        (PyObj.tuple [PyObj.int 1, PyObj.int 2]) none ⟨⟨none⟩, []⟩).2.tstate.curexc
          = some ⟨PyExc.RuntimeError, some (PyObj.str "boom")⟩) :=
  ⟨(raku_object_call_forwards_once (hostReturning (PyObj.int 3)) ⟨7⟩
      (PyObj.tuple [PyObj.int 1, PyObj.int 2]) none ⟨⟨none⟩, []⟩).2.2 rfl,
    (raku_object_call_forwards_once (hostFailing (PyObj.str "boom")) ⟨7⟩
      (PyObj.tuple [PyObj.int 1, PyObj.int 2]) none ⟨⟨none⟩, []⟩).2.1 (PyObj.str "boom") rfl⟩

theorem raku_object_getattr_reserved (cb : RakuCallbacks)
    (gga : RakuObject → PyObj → ThreadState → Option PyObj × ThreadState)
    (self : RakuObject) (name : NameObject) (w : World)
    (hn : name.header = "__dict__" ∨ name.header = "__class__") :
    raku_object_getattr cb gga self name w
      = ((gga self (PyObj.str name.header) w.tstate).1,
          ⟨(gga self (PyObj.str name.header) w.tstate).2, w.trace⟩) := by
  simp only [raku_object_getattr, NameObject.asCString, hn, if_true, PyUnicode_FromString]

theorem raku_object_getattr_error (cb : RakuCallbacks)
    (gga : RakuObject → PyObj → ThreadState → Option PyObj × ThreadState)
    (self : RakuObject) (name : NameObject) (w : World) (e : PyObj)
    (hn : ¬ (name.header = "__dict__" ∨ name.header = "__class__"))
    (he : (cb.call_raku_method self.raku_index "__getattr__"
        (PyObj.tuple [PyObj.str name.header]) w.tstate).error = some e) :
    raku_object_getattr cb gga self name w
      = (none, ⟨⟨some ⟨PyExc.AttributeError, some e⟩⟩,
          w.trace ++ [HostCall.method self.raku_index "__getattr__"
            (PyObj.tuple [PyObj.str name.header])]⟩) := by
  simp only [raku_object_getattr, NameObject.asCString, hn, if_false, PyUnicode_FromString,
    he, PyErr_SetObject]

theorem raku_object_getattr_ok (cb : RakuCallbacks)
    (gga : RakuObject → PyObj → ThreadState → Option PyObj × ThreadState)
    (self : RakuObject) (name : NameObject) (w : World)
    (hn : ¬ (name.header = "__dict__" ∨ name.header = "__class__"))
    (he : (cb.call_raku_method self.raku_index "__getattr__"
        (PyObj.tuple [PyObj.str name.header]) w.tstate).error = none) :
    raku_object_getattr cb gga self name w
      = ((cb.call_raku_method self.raku_index "__getattr__"
            (PyObj.tuple [PyObj.str name.header]) w.tstate).result,
          ⟨(cb.call_raku_method self.raku_index "__getattr__"
            (PyObj.tuple [PyObj.str name.header]) w.tstate).tstate,
            w.trace ++ [HostCall.method self.raku_index "__getattr__"
              (PyObj.tuple [PyObj.str name.header])]⟩) := by
  simp only [raku_object_getattr, NameObject.asCString, hn, if_false, PyUnicode_FromString,
    he]

/-- What `raku_object_getattr` forwards is the C string read at the name
object's address, whatever attribute name the object holds: when those bytes
are neither `"__dict__"` nor `"__class__"`, the host's method-call function is
invoked once with `(index, "__getattr__", (header,))`. -/
theorem raku_object_getattr_forwards_header (cb : RakuCallbacks)
    (gga : RakuObject → PyObj → ThreadState → Option PyObj × ThreadState)
    (self : RakuObject) (name : NameObject) (w : World)
    (hn : ¬ (name.header = "__dict__" ∨ name.header = "__class__")) :
    (raku_object_getattr cb gga self name w).2.trace
      = w.trace ++ [HostCall.method self.raku_index "__getattr__"
          (PyObj.tuple [PyObj.str name.header])] := by
  cases he : (cb.call_raku_method self.raku_index "__getattr__"
      (PyObj.tuple [PyObj.str name.header]) w.tstate).error with
  | none => rw [raku_object_getattr_ok cb gga self name w hn he]
  | some e => rw [raku_object_getattr_error cb gga self name w e hn he]

/-- C4 (the code at the failing input): the interpreter looks up an attribute
of the wrapped object bound to index 3, passing the name as a text object
whose header bytes start with a zero byte (so the C string read at its address
is empty). For the attribute `"x"` the host's method-call function is invoked
with `(3, "__getattr__", ("",))`, not with `("x",)`; for the reserved
attribute `"__class__"` the host is invoked as well, instead of being
bypassed. -/
theorem attribute_access_forwards_header_bytes :
    (raku_object_getattr (hostReturning (PyObj.int 42)) genericGetAttrMissing ⟨3⟩
        ⟨"", "x"⟩ ⟨⟨none⟩, []⟩).2.trace
      = [HostCall.method 3 "__getattr__" (PyObj.tuple [PyObj.str ""])] ∧
    ¬ ((raku_object_getattr (hostReturning (PyObj.int 42)) genericGetAttrMissing ⟨3⟩
        ⟨"", "x"⟩ ⟨⟨none⟩, []⟩).2.trace
      = [HostCall.method 3 "__getattr__" (PyObj.tuple [PyObj.str "x"])]) ∧
    (raku_object_getattr (hostReturning (PyObj.int 42)) genericGetAttrMissing ⟨3⟩
        ⟨"", "__class__"⟩ ⟨⟨none⟩, []⟩).2.trace
      = [HostCall.method 3 "__getattr__" (PyObj.tuple [PyObj.str ""])] ∧
    ¬ ((raku_object_getattr (hostReturning (PyObj.int 42)) genericGetAttrMissing ⟨3⟩
        ⟨"", "__class__"⟩ ⟨⟨none⟩, []⟩).2.trace = []) := by
  have h1 : (raku_object_getattr (hostReturning (PyObj.int 42)) genericGetAttrMissing ⟨3⟩
        ⟨"", "x"⟩ ⟨⟨none⟩, []⟩).2.trace
      = [HostCall.method 3 "__getattr__" (PyObj.tuple [PyObj.str ""])] := rfl
  have h2 : (raku_object_getattr (hostReturning (PyObj.int 42)) genericGetAttrMissing ⟨3⟩
        ⟨"", "__class__"⟩ ⟨⟨none⟩, []⟩).2.trace
      = [HostCall.method 3 "__getattr__" (PyObj.tuple [PyObj.str ""])] := rfl
  refine ⟨h1, ?_, h2, ?_⟩
  · rw [h1]
    intro h
    simp only [List.cons.injEq, HostCall.method.injEq, PyObj.tuple.injEq, PyObj.str.injEq,
      and_true, true_and] at h
    exact absurd h (by decide)
  · rw [h2]
    intro h
    exact List.noConfusion h

/-- C5 (as stated, refuted): the object `raku_object_new` allocates has index
`-1`; called with `(1, 2)` while the host answers every index with `3`,
`raku_object_call` forwards the call to the host with index `-1`, returns `3`
and raises nothing. -/
theorem unbound_object_call_is_forwarded :
    raku_object_new true = some ⟨-1⟩ ∧
    (raku_object_call (hostReturning (PyObj.int 3)) ⟨-1⟩
        (PyObj.tuple [PyObj.int 1, PyObj.int 2]) none ⟨⟨none⟩, []⟩).1 = some (PyObj.int 3) ∧
    (raku_object_call (hostReturning (PyObj.int 3)) ⟨-1⟩
        (PyObj.tuple [PyObj.int 1, PyObj.int 2]) none ⟨⟨none⟩, []⟩).2.tstate.pending = false ∧
    (raku_object_call (hostReturning (PyObj.int 3)) ⟨-1⟩
        (PyObj.tuple [PyObj.int 1, PyObj.int 2]) none ⟨⟨none⟩, []⟩).2.trace
      = [HostCall.object (-1) (PyObj.tuple [PyObj.int 1, PyObj.int 2])] ∧
    ¬ ((raku_object_call (hostReturning (PyObj.int 3)) ⟨-1⟩
        (PyObj.tuple [PyObj.int 1, PyObj.int 2]) none ⟨⟨none⟩, []⟩).1 = none) :=
  ⟨rfl, rfl, rfl, rfl, fun h => Option.noConfusion h⟩

/-- C5 (amended): a wrapped object allocated by `raku_object_new` and never
bound has index `-1`, and `raku_object_call` on it forwards the call to the
host's object-call function exactly once with index `-1`, as for any other
index: it returns no result with a pending `RuntimeError` exactly when that
function reports an error for `-1` (the payload being the error value), and
otherwise returns the function's result. -/
theorem unbound_object_call_defers_to_host (cb : RakuCallbacks) (self : RakuObject)
    (args : PyObj) (kwds : Option PyObj) (w : World)
    (hnew : raku_object_new true = some self) :
    self.raku_index = -1 ∧
    (raku_object_call cb self args kwds w).2.trace
        = w.trace ++ [HostCall.object (-1) args] ∧
    (∀ e, (cb.call_raku_object (-1) args w.tstate).error = some e →
      (raku_object_call cb self args kwds w).1 = none ∧
      (raku_object_call cb self args kwds w).2.tstate.curexc
        = some ⟨PyExc.RuntimeError, some e⟩) ∧
    ((cb.call_raku_object (-1) args w.tstate).error = none →
      (raku_object_call cb self args kwds w).1
        = (cb.call_raku_object (-1) args w.tstate).result ∧
      (raku_object_call cb self args kwds w).2.tstate
        = (cb.call_raku_object (-1) args w.tstate).tstate) := by
  have hself : self = ⟨-1⟩ := by
    simp only [raku_object_new, if_true, Option.some.injEq] at hnew
    exact hnew.symm
  subst hself
  refine ⟨rfl, raku_object_call_trace cb _ args kwds w, ?_, ?_⟩
  · intro e he
    rw [raku_object_call_error cb ⟨-1⟩ args kwds w e he]
    exact ⟨rfl, rfl⟩
  · intro he
    rw [raku_object_call_ok cb ⟨-1⟩ args kwds w he]
    exact ⟨rfl, rfl⟩

/-- Witness for C5 (amended): the unbound object under a host that reports
`"no such object"` for every index, and under a host that returns `3`. -/
theorem unbound_object_call_defers_to_host_witness :
    raku_object_new true = some ⟨-1⟩ ∧
    ((raku_object_call (hostFailing (PyObj.str "no such object")) ⟨-1⟩ (PyObj.tuple []) none
        ⟨⟨none⟩, []⟩).1 = none ∧
      (raku_object_call (hostFailing (PyObj.str "no such object")) ⟨-1⟩ (PyObj.tuple []) none
        ⟨⟨none⟩, []⟩).2.tstate.curexc
        = some ⟨PyExc.RuntimeError, some (PyObj.str "no such object")⟩) ∧
    (raku_object_call (hostReturning (PyObj.int 3)) ⟨-1⟩ (PyObj.tuple []) none
        ⟨⟨none⟩, []⟩).1 = some (PyObj.int 3) :=
  ⟨rfl,
    (unbound_object_call_defers_to_host (hostFailing (PyObj.str "no such object")) ⟨-1⟩
      (PyObj.tuple []) none ⟨⟨none⟩, []⟩ rfl).2.2.1 (PyObj.str "no such object") rfl,
    ((unbound_object_call_defers_to_host (hostReturning (PyObj.int 3)) ⟨-1⟩
      (PyObj.tuple []) none ⟨⟨none⟩, []⟩ rfl).2.2.2 rfl).1⟩

/-! ### The batch codec -/

theorem CArray.write_apply {α : Type} (a : CArray α) (i j : Nat) (v : α) :
    a.write i v j = if j = i then v else a j := by
  unfold CArray.write
  by_cases e : j = i
  · subst e; simp
  · simp [Function.update_noteq e, e]

/-- A counted loop whose body stores `f i` in slot `i`: afterwards the slots
below `n` hold `f`, the others are as before. -/
theorem forLoop_results {α τ : Type} (n : Nat) (body : Nat → CArray α × τ → CArray α × τ)
    (f : Nat → α) (hbody : ∀ i s, (body i s).1 = s.1.write i (f i))
    (s : CArray α × τ) (j : Nat) :
    (forLoop n body s).1 j = if j < n then f j else s.1 j := by
  induction n with
  | zero => simp [forLoop]
  | succ n ih =>
    rw [forLoop_succ, hbody, CArray.write_apply, ih]
    by_cases e : j = n
    · subst e; simp
    · have h1 : (j < n + 1) ↔ (j < n) := by omega
      simp [e, h1]

/-- A counted loop none of whose bodies changes the second component. -/
theorem forLoop_snd {α τ : Type} (n : Nat) (body : Nat → CArray α × τ → CArray α × τ)
    (hbody : ∀ i, i < n → ∀ s, (body i s).2 = s.2) (s : CArray α × τ) :
    (forLoop n body s).2 = s.2 := by
  induction n with
  | zero => rfl
  | succ n ih =>
    rw [forLoop_succ, hbody n (Nat.lt_succ_self n),
      ih (fun i hi => hbody i (Nat.lt_succ_of_lt hi))]

theorem forLoop_array {α : Type} (n : Nat) (body : Nat → CArray α → CArray α)
    (f : Nat → α) (hbody : ∀ i a, body i a = a.write i (f i)) (a : CArray α) (j : Nat) :
    forLoop n body a j = if j < n then f j else a j := by
  induction n with
  | zero => simp [forLoop]
  | succ n ih =>
    rw [forLoop_succ, hbody, CArray.write_apply, ih]
    by_cases e : j = n
    · subst e; simp
    · have h1 : (j < n + 1) ↔ (j < n) := by omega
      simp [e, h1]

theorem wrapSigned_of_fits (w : Nat) (v : Int) (hw : 1 ≤ w) (hv : fitsSigned w v = true) :
    wrapSigned w v = v := by
  have hpow : (2 : Int) ^ w = 2 * 2 ^ (w - 1) := by
    obtain ⟨k, rfl⟩ : ∃ k, w = k + 1 := ⟨w - 1, by omega⟩
    simp [pow_succ, mul_comm]
  simp only [fitsSigned, decide_eq_true_eq] at hv
  unfold wrapSigned
  rw [hpow, Int.emod_eq_of_lt (by linarith [hv.1]) (by linarith [hv.2])]
  ring

theorem fitsSigned_small (w : Nat) (v : Int) (hw : 32 ≤ w) (h1 : -5 ≤ v) (h2 : v ≤ 256) :
    fitsSigned w v = true := by
  have hp : (2 : Int) ^ 31 ≤ 2 ^ (w - 1) :=
    pow_le_pow_right₀ (by norm_num) (by omega)
  simp only [fitsSigned, decide_eq_true_eq]
  constructor <;> norm_num at hp <;> linarith

/-- The object `python3_batch_int_to_py` stores for the value `v`. -/
theorem python3_batch_int_to_py_apply (longBits : Nat) (values : CArray Int) (count : Int)
    (results : CArray PyObj) (j : Nat) :
    python3_batch_int_to_py longBits values count results j
      = if j < count.toNat then
          (if -5 ≤ values j ∧ values j ≤ 256
            then PyLong_FromLong (wrapSigned longBits (values j))
            else PyLong_FromLongLong (values j))
        else results j := by
  unfold python3_batch_int_to_py
  apply forLoop_array
  intro i a
  split <;> rfl

theorem python3_batch_py_to_int_apply (values : CArray PyObj) (count : Int)
    (results : CArray Int) (ts : ThreadState) (j : Nat) :
    (python3_batch_py_to_int values count results ts).1 j
      = if j < count.toNat then
          (if PyLong_Check (values j) then
            (if fitsSigned 64 (intValue (values j)) then intValue (values j) else -1)
           else 0)
        else results j := by
  unfold python3_batch_py_to_int
  apply forLoop_results
  intro i s
  by_cases hc : PyLong_Check (values i) = true
  · by_cases hf : fitsSigned 64 (intValue (values i)) = true
    · simp [hc, hf, PyLong_AsLongLong]
    · simp [hc, hf, PyLong_AsLongLong]
  · simp [hc]

theorem python3_batch_py_to_int_tstate (values : CArray PyObj) (count : Int)
    (results : CArray Int) (ts : ThreadState)
    (hok : ∀ j, j < count.toNat → PyLong_Check (values j) = true →
      fitsSigned 64 (intValue (values j)) = true) :
    (python3_batch_py_to_int values count results ts).2 = ts := by
  unfold python3_batch_py_to_int
  apply forLoop_snd
  intro i hi s
  by_cases hc : PyLong_Check (values i) = true
  · simp [hc, hok i hi hc, PyLong_AsLongLong]
  · simp [hc]

theorem int_to_py_value (longBits : Nat) (v : Int) (hlong : 32 ≤ longBits) :
    (if -5 ≤ v ∧ v ≤ 256 then PyLong_FromLong (wrapSigned longBits v)
      else PyLong_FromLongLong v) = PyObj.int v := by
  split
  · rename_i h
    rw [wrapSigned_of_fits longBits v (by omega) (fitsSigned_small longBits v hlong h.1 h.2)]
    rfl
  · rfl

/-- C6: for every array of `int64_t` values and every count, converting with
`python3_batch_int_to_py` and back with `python3_batch_py_to_int` yields the
original value in every slot `i < count`, for every value of the `int64_t`
range (so for -5, 256, 257, `INT64_MIN` and `INT64_MAX`), and raises nothing;
on a value of `[-5, 256]` the small-range branch (`PyLong_FromLong`, whatever
the width of `long`, at least 32 bits) builds the same integer as the general
branch (`PyLong_FromLongLong`). -/
theorem batch_int_round_trip (longBits : Nat) (values : CArray Int) (count : Int)
    (pyresults : CArray PyObj) (results : CArray Int) (ts : ThreadState)
    (hlong : 32 ≤ longBits) :
    (∀ i, i < count.toNat → fitsSigned 64 (values i) = true →
      (python3_batch_py_to_int (python3_batch_int_to_py longBits values count pyresults)
        count results ts).1 i = values i) ∧
    ((∀ i, i < count.toNat → fitsSigned 64 (values i) = true) →
      (python3_batch_py_to_int (python3_batch_int_to_py longBits values count pyresults)
        count results ts).2 = ts) ∧
    (∀ v : Int, -5 ≤ v → v ≤ 256 →
      PyLong_FromLong (wrapSigned longBits v) = PyLong_FromLongLong v) := by
  have hobj : ∀ i, i < count.toNat →
      python3_batch_int_to_py longBits values count pyresults i = PyObj.int (values i) := by
    intro i hi
    rw [python3_batch_int_to_py_apply, if_pos hi, int_to_py_value longBits _ hlong]
  refine ⟨?_, ?_, ?_⟩
  · intro i hi hfit
    rw [python3_batch_py_to_int_apply, if_pos hi, hobj i hi]
    simp [PyLong_Check, intValue, hfit]
  · intro hfit
    apply python3_batch_py_to_int_tstate
    intro j hj _
    rw [hobj j hj]
    exact hfit j hj
  · intro v h1 h2
    rw [wrapSigned_of_fits longBits v (by omega) (fitsSigned_small longBits v hlong h1 h2)]
    rfl

/-- Witness for C6: the boundary values -5, 256, 257, `INT64_MIN` and
`INT64_MAX`, with a 32-bit `long`. -/
theorem batch_int_round_trip_witness :
    32 ≤ 32 ∧
    (python3_batch_py_to_int
      (python3_batch_int_to_py 32
        (fun i => [-5, 256, 257, -9223372036854775808, 9223372036854775807].getD i 0) 5
        (fun _ => PyObj.none))
      5 (fun _ => 0) ⟨none⟩).1 0 = -5 ∧
    (python3_batch_py_to_int
      (python3_batch_int_to_py 32
        (fun i => [-5, 256, 257, -9223372036854775808, 9223372036854775807].getD i 0) 5
        (fun _ => PyObj.none))
      5 (fun _ => 0) ⟨none⟩).1 1 = 256 ∧
    (python3_batch_py_to_int
      (python3_batch_int_to_py 32
        (fun i => [-5, 256, 257, -9223372036854775808, 9223372036854775807].getD i 0) 5
        (fun _ => PyObj.none))
      5 (fun _ => 0) ⟨none⟩).1 2 = 257 ∧
    (python3_batch_py_to_int
      (python3_batch_int_to_py 32
        (fun i => [-5, 256, 257, -9223372036854775808, 9223372036854775807].getD i 0) 5
        (fun _ => PyObj.none))
      5 (fun _ => 0) ⟨none⟩).1 3 = -9223372036854775808 ∧
    (python3_batch_py_to_int
      (python3_batch_int_to_py 32
        (fun i => [-5, 256, 257, -9223372036854775808, 9223372036854775807].getD i 0) 5
        (fun _ => PyObj.none))
      5 (fun _ => 0) ⟨none⟩).1 4 = 9223372036854775807 ∧
    PyLong_FromLong (wrapSigned 32 256) = PyLong_FromLongLong 256 :=
  ⟨le_refl 32,
    (batch_int_round_trip 32 _ 5 _ _ ⟨none⟩ (le_refl 32)).1 0 (by decide) (by decide),
    (batch_int_round_trip 32 _ 5 _ _ ⟨none⟩ (le_refl 32)).1 1 (by decide) (by decide),
    (batch_int_round_trip 32 _ 5 _ _ ⟨none⟩ (le_refl 32)).1 2 (by decide) (by decide),
    (batch_int_round_trip 32 _ 5 _ _ ⟨none⟩ (le_refl 32)).1 3 (by decide) (by decide),
    (batch_int_round_trip 32 _ 5 _ _ ⟨none⟩ (le_refl 32)).1 4 (by decide) (by decide),
    (batch_int_round_trip 32 (fun _ => 0) 0 (fun _ => PyObj.none) (fun _ => 0) ⟨none⟩
      (le_refl 32)).2.2 256 (by decide) (by decide)⟩

theorem python3_batch_py_to_num_apply (toDouble : Int → Double) (values : CArray PyObj)
    (count : Int) (results : CArray Double) (ts : ThreadState) (j : Nat) :
    (python3_batch_py_to_num toDouble values count results ts).1 j
      = if j < count.toNat then
          (if PyFloat_Check (values j) then (PyFloat_AsDouble (values j) ts).1
           else if PyLong_Check (values j) then
            toDouble (if fitsSigned 64 (intValue (values j)) then intValue (values j) else -1)
           else Double.zero)
        else results j := by
  unfold python3_batch_py_to_num
  apply forLoop_results
  intro i s
  by_cases hf : PyFloat_Check (values i) = true
  · have hv : ∃ d, values i = PyObj.float d := by
      cases h : values i <;> simp [h, PyFloat_Check] at hf
      exact ⟨_, rfl⟩
    obtain ⟨d, hd⟩ := hv
    simp [hd, PyFloat_Check, PyFloat_AsDouble]
  · by_cases hc : PyLong_Check (values i) = true
    · by_cases hfit : fitsSigned 64 (intValue (values i)) = true
      · simp [hf, hc, hfit, PyLong_AsLongLong]
      · simp [hf, hc, hfit, PyLong_AsLongLong]
    · simp [hf, hc]

theorem python3_batch_py_to_num_tstate (toDouble : Int → Double) (values : CArray PyObj)
    (count : Int) (results : CArray Double) (ts : ThreadState)
    (hok : ∀ j, j < count.toNat → PyLong_Check (values j) = true →
      fitsSigned 64 (intValue (values j)) = true) :
    (python3_batch_py_to_num toDouble values count results ts).2 = ts := by
  unfold python3_batch_py_to_num
  apply forLoop_snd
  intro i hi s
  by_cases hf : PyFloat_Check (values i) = true
  · have hv : ∃ d, values i = PyObj.float d := by
      cases h : values i <;> simp [h, PyFloat_Check] at hf
      exact ⟨_, rfl⟩
    obtain ⟨d, hd⟩ := hv
    simp [hd, PyFloat_Check, PyFloat_AsDouble]
  · by_cases hc : PyLong_Check (values i) = true
    · simp [hf, hc, hok i hi hc, PyLong_AsLongLong]
    · simp [hf, hc]

theorem PyUnicode_AsUTF8_fst (o : PyObj) (ts : ThreadState) :
    (PyUnicode_AsUTF8 o ts).1 = utf8Text o := by
  unfold PyUnicode_AsUTF8
  by_cases hu : PyUnicode_Check o = true
  · rw [if_pos hu]
    cases utf8Text o <;> rfl
  · rw [if_neg hu]
    cases o <;> simp [PyUnicode_Check] at hu <;> rfl

theorem PyUnicode_AsUTF8_snd (o : PyObj) (ts : ThreadState) (t : String)
    (ht : utf8Text o = some t) : (PyUnicode_AsUTF8 o ts).2 = ts := by
  have hu : PyUnicode_Check o = true := by
    cases o <;> simp [utf8Text] at ht <;> rfl
  simp [PyUnicode_AsUTF8, hu, ht]

theorem python3_batch_py_to_str_apply (values : CArray PyObj) (count : Int)
    (results : CArray (Option String)) (ts : ThreadState) (j : Nat) :
    (python3_batch_py_to_str values count results ts).1 j
      = if j < count.toNat then
          (if PyUnicode_Check (values j) then strdup (PyUnicode_AsUTF8 (values j) ts).1
           else strdup (some ""))
        else results j := by
  unfold python3_batch_py_to_str
  apply forLoop_results
  intro i s
  by_cases hu : PyUnicode_Check (values i) = true
  · simp [hu, PyUnicode_AsUTF8_fst]
  · simp [hu]

theorem python3_batch_py_to_str_defined_apply (values : CArray PyObj) (count : Int)
    (hdef : python3_batch_py_to_str_defined values count = true) (i : Nat)
    (hi : i < count.toNat) (hu : PyUnicode_Check (values i) = true) :
    ∃ t, utf8Text (values i) = some t := by
  unfold python3_batch_py_to_str_defined at hdef
  rw [List.all_eq_true] at hdef
  have h := hdef i (List.mem_range.mpr hi)
  rw [hu] at h
  simp only [Bool.not_true, Bool.false_or] at h
  exact Option.isSome_iff_exists.mp h

/-- A batch that never reaches `strdup(NULL)` raises nothing. -/
theorem python3_batch_py_to_str_tstate (values : CArray PyObj) (count : Int)
    (results : CArray (Option String)) (ts : ThreadState)
    (hdef : python3_batch_py_to_str_defined values count = true) :
    (python3_batch_py_to_str values count results ts).2 = ts := by
  unfold python3_batch_py_to_str
  apply forLoop_snd
  intro i hi s
  by_cases hu : PyUnicode_Check (values i) = true
  · obtain ⟨t, ht⟩ := python3_batch_py_to_str_defined_apply values count hdef i hi hu
    simp [hu, PyUnicode_AsUTF8_snd _ _ t ht]
  · simp [hu]

theorem strdup_empty : strdup (some "") = some "" := rfl

theorem strdup_of_no_nul (t : String) (hnul : Char.ofNat 0 ∉ t.data) :
    strdup (some t) = some t := by
  have h : t.data.takeWhile (fun c => decide (c ≠ Char.ofNat 0)) = t.data := by
    rw [List.takeWhile_eq_self_iff]
    intro c hc
    simp only [decide_eq_true_eq]
    intro e
    exact hnul (e ▸ hc)
  simp only [strdup, Option.map_some', h]

theorem PyFloat_Check_of_PyLong_Check (o : PyObj) (h : PyLong_Check o = true) :
    PyFloat_Check o = false := by
  cases o <;> simp [PyLong_Check, PyFloat_Check] at h ⊢

/-- C7 (as stated, refuted): the integer object `2^63` matches
`python3_batch_py_to_int` (it passes `PyLong_Check`) and yet is not written
with its own value: the slot receives `-1` and an `OverflowError` is left
pending; the text object `"a\0b"` matches `python3_batch_py_to_str` and the
slot receives `"a"`. -/
theorem batch_extraction_matching_value_lost :
    PyLong_Check (PyObj.int 9223372036854775808) = true ∧
    (python3_batch_py_to_int (fun _ => PyObj.int 9223372036854775808) 1 (fun _ => 0)
        ⟨none⟩).1 0 = -1 ∧
    ¬ ((python3_batch_py_to_int (fun _ => PyObj.int 9223372036854775808) 1 (fun _ => 0)
        ⟨none⟩).1 0 = intValue (PyObj.int 9223372036854775808)) ∧
    (python3_batch_py_to_int (fun _ => PyObj.int 9223372036854775808) 1 (fun _ => 0)
        ⟨none⟩).2.pending = true ∧
    PyUnicode_Check (PyObj.str (String.mk [Char.ofNat 97, Char.ofNat 0, Char.ofNat 98])) = true ∧
    (python3_batch_py_to_str
        (fun _ => PyObj.str (String.mk [Char.ofNat 97, Char.ofNat 0, Char.ofNat 98])) 1
        (fun _ => none) ⟨none⟩).1 0 = some "a" := by
  refine ⟨rfl, ?_, ?_, ?_, rfl, ?_⟩
  · decide
  · decide
  · decide
  · decide

/-- A text object holding the lone surrogate `U+D800` passes
`PyUnicode_Check`, has no NUL character, and `PyUnicode_AsUTF8` gives `NULL`
for it with `UnicodeEncodeError` pending: a batch that contains it reaches
`strdup(NULL)`. -/
theorem lone_surrogate_reaches_strdup_null :
    PyUnicode_Check (PyObj.ustr [0xD800]) = true ∧
    (PyUnicode_AsUTF8 (PyObj.ustr [0xD800]) ⟨none⟩).1 = none ∧
    (PyUnicode_AsUTF8 (PyObj.ustr [0xD800]) ⟨none⟩).2.pending = true ∧
    python3_batch_py_to_str_defined (fun _ => PyObj.ustr [0xD800]) 1 = false := by
  refine ⟨rfl, ?_, ?_, ?_⟩ <;> decide

/-- C7 (amended): in the batch extraction paths a type mismatch yields the
default and no failure: for every `i < count`, `python3_batch_py_to_int`
writes `0` when `values[i]` is not an integer object, `python3_batch_py_to_num`
writes `0.0` when it is neither a float nor an integer object, and
`python3_batch_py_to_str`, on a batch all of whose text objects can be encoded
in UTF-8 (none holds a lone surrogate, so `strdup` is never given `NULL`),
writes an empty string when it is not a text object; a matching element is
written with its own value when the slot can hold it: an integer object of
the `int64_t` range (as itself, resp. converted to `double`), a float object,
and in such a batch a text object without NUL character. A batch without
an integer outside the `int64_t` range leaves the thread state as it was (no
exception), and so does `python3_batch_py_to_str` on such a batch. -/
theorem batch_extraction_defaults (toDouble : Int → Double) (values : CArray PyObj)
    (count : Int) (ri : CArray Int) (rn : CArray Double) (rs : CArray (Option String))
    (ts : ThreadState) (i : Nat) (hi : i < count.toNat) :
    (PyLong_Check (values i) = false →
      (python3_batch_py_to_int values count ri ts).1 i = 0) ∧
    (PyFloat_Check (values i) = false → PyLong_Check (values i) = false →
      (python3_batch_py_to_num toDouble values count rn ts).1 i = Double.zero) ∧
    (python3_batch_py_to_str_defined values count = true →
      PyUnicode_Check (values i) = false →
        (python3_batch_py_to_str values count rs ts).1 i = some "") ∧
    (PyLong_Check (values i) = true → fitsSigned 64 (intValue (values i)) = true →
      (python3_batch_py_to_int values count ri ts).1 i = intValue (values i) ∧
      (python3_batch_py_to_num toDouble values count rn ts).1 i
        = toDouble (intValue (values i))) ∧
    (∀ d, values i = PyObj.float d →
      (python3_batch_py_to_num toDouble values count rn ts).1 i = d) ∧
    (python3_batch_py_to_str_defined values count = true →
      ∀ t, PyUnicode_Check (values i) = true → utf8Text (values i) = some t →
        Char.ofNat 0 ∉ t.data →
          (python3_batch_py_to_str values count rs ts).1 i = some t) ∧
    ((∀ j, j < count.toNat → PyLong_Check (values j) = true →
        fitsSigned 64 (intValue (values j)) = true) →
      (python3_batch_py_to_int values count ri ts).2 = ts ∧
      (python3_batch_py_to_num toDouble values count rn ts).2 = ts) ∧
    (python3_batch_py_to_str_defined values count = true →
      (python3_batch_py_to_str values count rs ts).2 = ts) := by
  rw [python3_batch_py_to_int_apply, python3_batch_py_to_num_apply,
    python3_batch_py_to_str_apply, if_pos hi, if_pos hi, if_pos hi]
  refine ⟨?_, ?_, ?_, ?_, ?_, ?_, ?_, python3_batch_py_to_str_tstate values count rs ts⟩
  · intro h
    simp [h]
  · intro h1 h2
    simp [h1, h2]
  · intro _ h
    simp [h, strdup_empty]
  · intro h1 h2
    simp [h1, h2, PyFloat_Check_of_PyLong_Check _ h1]
  · intro d hd
    simp [hd, PyFloat_Check, PyFloat_AsDouble]
  · intro _ t hu ht hnul
    rw [if_pos hu, PyUnicode_AsUTF8_fst, ht, strdup_of_no_nul t hnul]
  · intro hok
    exact ⟨python3_batch_py_to_int_tstate values count ri ts hok,
      python3_batch_py_to_num_tstate toDouble values count rn ts hok⟩

/-- Witness for C7 (amended): the batch `["x", 7]`, whose one text can be
encoded: slot 0 (a text) gives the integer default `0` and the float default
`0.0`, slot 1 (an integer) gives the text default `""` and its own value `7`;
slot 0 gives its own text `"x"`, and nothing is raised. -/
theorem batch_extraction_defaults_witness :
    python3_batch_py_to_str_defined
        (fun i => [PyObj.str "x", PyObj.int 7].getD i PyObj.none) 2 = true ∧
    (python3_batch_py_to_int (fun i => [PyObj.str "x", PyObj.int 7].getD i PyObj.none) 2
        (fun _ => 5) ⟨none⟩).1 0 = 0 ∧
    (python3_batch_py_to_num (fun _ => ⟨1⟩)
        (fun i => [PyObj.str "x", PyObj.int 7].getD i PyObj.none) 2
        (fun _ => ⟨5⟩) ⟨none⟩).1 0 = Double.zero ∧
    (python3_batch_py_to_str (fun i => [PyObj.str "x", PyObj.int 7].getD i PyObj.none) 2
        (fun _ => none) ⟨none⟩).1 1 = some "" ∧
    (python3_batch_py_to_int (fun i => [PyObj.str "x", PyObj.int 7].getD i PyObj.none) 2
        (fun _ => 5) ⟨none⟩).1 1 = 7 ∧
    (python3_batch_py_to_str (fun i => [PyObj.str "x", PyObj.int 7].getD i PyObj.none) 2
        (fun _ => none) ⟨none⟩).1 0 = some "x" ∧
    (python3_batch_py_to_str (fun i => [PyObj.str "x", PyObj.int 7].getD i PyObj.none) 2
        (fun _ => none) ⟨none⟩).2 = ⟨none⟩ :=
  ⟨by decide,
    (batch_extraction_defaults (fun _ => ⟨1⟩)
      (fun i => [PyObj.str "x", PyObj.int 7].getD i PyObj.none) 2
      (fun _ => 5) (fun _ => ⟨5⟩) (fun _ => none) ⟨none⟩ 0 (by decide)).1 rfl,
    (batch_extraction_defaults (fun _ => ⟨1⟩)
      (fun i => [PyObj.str "x", PyObj.int 7].getD i PyObj.none) 2
      (fun _ => 5) (fun _ => ⟨5⟩) (fun _ => none) ⟨none⟩ 0 (by decide)).2.1 rfl rfl,
    (batch_extraction_defaults (fun _ => ⟨1⟩)
      (fun i => [PyObj.str "x", PyObj.int 7].getD i PyObj.none) 2
      (fun _ => 5) (fun _ => ⟨5⟩) (fun _ => none) ⟨none⟩ 1 (by decide)).2.2.1
        (by decide) rfl,
    ((batch_extraction_defaults (fun _ => ⟨1⟩)
      (fun i => [PyObj.str "x", PyObj.int 7].getD i PyObj.none) 2
      (fun _ => 5) (fun _ => ⟨5⟩) (fun _ => none) ⟨none⟩ 1 (by decide)).2.2.2.1 rfl
        (by decide)).1,
    (batch_extraction_defaults (fun _ => ⟨1⟩)
      (fun i => [PyObj.str "x", PyObj.int 7].getD i PyObj.none) 2
      (fun _ => 5) (fun _ => ⟨5⟩) (fun _ => none) ⟨none⟩ 0 (by decide)).2.2.2.2.2.1
        (by decide) "x" rfl rfl (by decide),
    (batch_extraction_defaults (fun _ => ⟨1⟩)
      (fun i => [PyObj.str "x", PyObj.int 7].getD i PyObj.none) 2
      (fun _ => 5) (fun _ => ⟨5⟩) (fun _ => none) ⟨none⟩ 0 (by decide)).2.2.2.2.2.2.2
        (by decide)⟩

/-- C8 (as stated, refuted): on the text handle `"42"`, `python3_int_to_long`
returns `-1`, not `0`, and leaves a `TypeError` pending; on the integer handle
`5`, `python3_str_to_utf8` returns `NULL`, not an empty string, and leaves a
`TypeError` pending. -/
theorem single_extractors_are_strict :
    (python3_int_to_long 64 (PyObj.str "42") ⟨none⟩).1 = -1 ∧
    ¬ ((python3_int_to_long 64 (PyObj.str "42") ⟨none⟩).1 = 0) ∧
    (python3_int_to_long 64 (PyObj.str "42") ⟨none⟩).2.pending = true ∧
    (python3_str_to_utf8 true (PyObj.int 5) 0 ⟨none⟩).1 = none ∧
    (python3_str_to_utf8 false (PyObj.int 5) 0 ⟨none⟩).1 = none ∧
    ¬ ((python3_str_to_utf8 true (PyObj.int 5) 0 ⟨none⟩).1 = some "") ∧
    (python3_str_to_utf8 true (PyObj.int 5) 0 ⟨none⟩).2.2.pending = true ∧
    (python3_str_to_utf8 false (PyObj.int 5) 0 ⟨none⟩).2.2.pending = true := by
  refine ⟨rfl, ?_, rfl, rfl, rfl, ?_, rfl, rfl⟩
  · decide
  · decide

/-- C8 (amended): the single-value extractors pass the embedded runtime's
failure through instead of substituting a default: for every text handle
`python3_int_to_long` returns `-1` and leaves a `TypeError` pending; for every
integer handle `python3_str_to_utf8` returns `NULL` (no string) and leaves a
`TypeError` pending. -/
theorem single_extractors_pass_failure_through (longBits : Nat) (sizeOnError : Bool)
    (t : String) (n size : Int) (ts : ThreadState) :
    (python3_int_to_long longBits (PyObj.str t) ts).1 = -1 ∧
    (python3_int_to_long longBits (PyObj.str t) ts).2.curexc
      = some ⟨PyExc.TypeError, none⟩ ∧
    (python3_str_to_utf8 sizeOnError (PyObj.int n) size ts).1 = none ∧
    (python3_str_to_utf8 sizeOnError (PyObj.int n) size ts).2.2.curexc
      = some ⟨PyExc.TypeError, none⟩ :=
  ⟨rfl, rfl, rfl, rfl⟩

/-! ### The homogeneity probes -/

theorem firstReturn_eq_none_iff {ρ : Type} (n : Nat) (body : Fin n → Option ρ) :
    firstReturn n body = none ↔ ∀ i, body i = none := by
  induction n with
  | zero => exact ⟨fun _ i => i.elim0, fun _ => rfl⟩
  | succ n ih =>
    rw [Fin.forall_fin_succ]
    cases h0 : body 0 with
    | some r => simp [firstReturn, h0]
    | none => simp [firstReturn, h0, ih]

theorem firstReturn_eq_some {ρ : Type} (n : Nat) (body : Fin n → Option ρ) (r : ρ)
    (h : firstReturn n body = some r) : ∃ i, body i = some r := by
  induction n with
  | zero => simp [firstReturn] at h
  | succ n ih =>
    cases h0 : body 0 with
    | some r0 =>
      simp [firstReturn, h0] at h
      exact ⟨0, by rw [h0, h]⟩
    | none =>
      simp [firstReturn, h0] at h
      obtain ⟨i, hi⟩ := ih _ h
      exact ⟨i.succ, hi⟩

theorem PyList_GetItem_list (items : List PyObj) (i : Fin items.length) :
    PyList_GetItem (PyObj.list items) i = items.get i := rfl

/-- A scanning loop over a list object that returns 0 at the first item
failing the test `p` and 1 after the last item. -/
theorem scan_list (p : PyObj → Bool) (items : List PyObj) :
    (match firstReturn (PyList_Size (PyObj.list items)).toNat (fun i =>
        if (!p (PyList_GetItem (PyObj.list items) i)) = true then some (0 : Int) else none) with
      | some r => r
      | none => 1)
      = if ∀ x ∈ items, p x = true then 1 else 0 := by
  cases h : firstReturn (PyList_Size (PyObj.list items)).toNat (fun i =>
        if (!p (PyList_GetItem (PyObj.list items) i)) = true then some (0 : Int)
        else none) with
  | none =>
    rw [firstReturn_eq_none_iff] at h
    have hall : ∀ x ∈ items, p x = true := by
      intro x hx
      obtain ⟨i, rfl⟩ := List.mem_iff_get.mp hx
      have := h i
      rw [PyList_GetItem_list] at this
      simpa using this
    rw [if_pos hall]
  | some r =>
    obtain ⟨i, hi⟩ := firstReturn_eq_some _ _ r h
    have hi2 : (if (!p (items.get i)) = true then some (0 : Int) else none)
        = some r := hi
    cases hc : p (items.get i) with
    | true =>
      rw [hc] at hi2
      exact absurd hi2 (by simp)
    | false =>
      rw [hc] at hi2
      have hr : r = 0 := by
        simp only [Bool.not_false, if_true, Option.some.injEq] at hi2
        exact hi2.symm
      have hnot : ¬ ∀ x ∈ items, p x = true := fun hall => by
        have hget : p (items.get i) = true := hall _ (List.get_mem items i.val i.isLt)
        rw [hc] at hget
        exact Bool.false_ne_true hget
      rw [if_neg hnot, hr]

theorem python3_list_is_homogeneous_int_list (items : List PyObj) :
    python3_list_is_homogeneous_int (PyObj.list items)
      = if ∀ x ∈ items, PyLong_Check x = true then 1 else 0 := by
  simp only [python3_list_is_homogeneous_int, PyList_Check, Bool.not_true, Bool.false_eq_true,
    if_false]
  exact scan_list PyLong_Check items

theorem python3_list_is_homogeneous_float_list (items : List PyObj) :
    python3_list_is_homogeneous_float (PyObj.list items)
      = if ∀ x ∈ items, (PyFloat_Check x || PyLong_Check x) = true then 1 else 0 := by
  simp only [python3_list_is_homogeneous_float, PyList_Check, Bool.not_true,
    Bool.false_eq_true, if_false]
  have h := scan_list (fun x => PyFloat_Check x || PyLong_Check x) items
  simp only [Bool.not_or] at h
  exact h

theorem python3_list_is_homogeneous_int_not_list (o : PyObj) (h : PyList_Check o = false) :
    python3_list_is_homogeneous_int o = 0 := by
  simp [python3_list_is_homogeneous_int, h]

theorem python3_list_is_homogeneous_float_not_list (o : PyObj) (h : PyList_Check o = false) :
    python3_list_is_homogeneous_float o = 0 := by
  simp [python3_list_is_homogeneous_float, h]

theorem PyList_Check_eq_true (o : PyObj) (h : PyList_Check o = true) :
    ∃ items, o = PyObj.list items := by
  cases o <;> simp [PyList_Check] at h
  exact ⟨_, rfl⟩

theorem homogeneous_int_eq_one_iff (o : PyObj) :
    python3_list_is_homogeneous_int o = 1
      ↔ ∃ items, o = PyObj.list items ∧ ∀ x ∈ items, PyLong_Check x = true := by
  constructor
  · intro h
    cases hc : PyList_Check o with
    | false =>
      rw [python3_list_is_homogeneous_int_not_list o hc] at h
      exact absurd h (by decide)
    | true =>
      obtain ⟨items, rfl⟩ := PyList_Check_eq_true o hc
      refine ⟨items, rfl, ?_⟩
      by_contra hnot
      rw [python3_list_is_homogeneous_int_list, if_neg hnot] at h
      exact absurd h (by decide)
  · rintro ⟨items, rfl, hall⟩
    rw [python3_list_is_homogeneous_int_list, if_pos hall]

theorem homogeneous_float_eq_one_iff (o : PyObj) :
    python3_list_is_homogeneous_float o = 1
      ↔ ∃ items, o = PyObj.list items ∧
          ∀ x ∈ items, PyFloat_Check x = true ∨ PyLong_Check x = true := by
  constructor
  · intro h
    cases hc : PyList_Check o with
    | false =>
      rw [python3_list_is_homogeneous_float_not_list o hc] at h
      exact absurd h (by decide)
    | true =>
      obtain ⟨items, rfl⟩ := PyList_Check_eq_true o hc
      refine ⟨items, rfl, ?_⟩
      by_contra hnot
      have hnot2 : ¬ ∀ x ∈ items, (PyFloat_Check x || PyLong_Check x) = true := by
        intro hall
        exact hnot (fun x hx => by simpa using hall x hx)
      rw [python3_list_is_homogeneous_float_list, if_neg hnot2] at h
      exact absurd h (by decide)
  · rintro ⟨items, rfl, hall⟩
    have hall2 : ∀ x ∈ items, (PyFloat_Check x || PyLong_Check x) = true :=
      fun x hx => by simpa using hall x hx
    rw [python3_list_is_homogeneous_float_list, if_pos hall2]

/-- C9: `python3_list_is_homogeneous_int` returns true (1) exactly when its
argument is a list every element of which is an integer object
(`PyLong_Check`), and false (0) otherwise: it returns 1 on every list made of
integers only, the empty list included, 0 on every list that holds a float or
any other non-integer at some position, and 0 on every object that is not a
list. -/
theorem homogeneous_int_iff_all_integers :
    (∀ o, python3_list_is_homogeneous_int o = 1
      ↔ ∃ items, o = PyObj.list items ∧ ∀ x ∈ items, PyLong_Check x = true) ∧
    (∀ o, python3_list_is_homogeneous_int o = 1 ∨ python3_list_is_homogeneous_int o = 0) ∧
    (∀ ns : List Int, python3_list_is_homogeneous_int (PyObj.list (ns.map PyObj.int)) = 1) ∧
    python3_list_is_homogeneous_int (PyObj.list []) = 1 ∧
    (∀ items d, PyObj.float d ∈ items →
      python3_list_is_homogeneous_int (PyObj.list items) = 0) ∧
    (∀ items x, x ∈ items → PyLong_Check x = false →
      python3_list_is_homogeneous_int (PyObj.list items) = 0) ∧
    (∀ o, PyList_Check o = false → python3_list_is_homogeneous_int o = 0) := by
  have hbad : ∀ items x, x ∈ items → PyLong_Check x = false →
      python3_list_is_homogeneous_int (PyObj.list items) = 0 := by
    intro items x hx hc
    have hnot : ¬ ∀ y ∈ items, PyLong_Check y = true := fun hall => by
      have hy := hall x hx
      rw [hc] at hy
      exact Bool.false_ne_true hy
    rw [python3_list_is_homogeneous_int_list, if_neg hnot]
  refine ⟨homogeneous_int_eq_one_iff, ?_, ?_, ?_, ?_, hbad, ?_⟩
  · intro o
    cases hc : PyList_Check o with
    | false => exact Or.inr (python3_list_is_homogeneous_int_not_list o hc)
    | true =>
      obtain ⟨items, rfl⟩ := PyList_Check_eq_true o hc
      rw [python3_list_is_homogeneous_int_list]
      split
      · exact Or.inl rfl
      · exact Or.inr rfl
  · intro ns
    refine (homogeneous_int_eq_one_iff _).mpr ⟨_, rfl, ?_⟩
    intro x hx
    obtain ⟨n, _, rfl⟩ := List.mem_map.mp hx
    rfl
  · exact (homogeneous_int_eq_one_iff _).mpr ⟨[], rfl, fun x hx => absurd hx (List.not_mem_nil x)⟩
  · intro items d hd
    exact hbad items (PyObj.float d) hd rfl
  · exact python3_list_is_homogeneous_int_not_list

/-- Witness for C9: `[1, 2, 3]` is homogeneous, `[1, 2.5, 3]` (one float in
the middle) is not, and the tuple `(1,)` is not a list. -/
theorem homogeneous_int_iff_all_integers_witness :
    python3_list_is_homogeneous_int (PyObj.list ([1, 2, 3].map PyObj.int)) = 1 ∧
    python3_list_is_homogeneous_int
      (PyObj.list [PyObj.int 1, PyObj.float ⟨0x4004000000000000⟩, PyObj.int 3]) = 0 ∧
    python3_list_is_homogeneous_int (PyObj.tuple [PyObj.int 1]) = 0 :=
  ⟨homogeneous_int_iff_all_integers.2.2.1 [1, 2, 3],
    homogeneous_int_iff_all_integers.2.2.2.2.1 _ ⟨0x4004000000000000⟩
      (List.mem_cons_of_mem _ (List.mem_cons_self _ _)),
    homogeneous_int_iff_all_integers.2.2.2.2.2.2 (PyObj.tuple [PyObj.int 1]) rfl⟩

/-- C10: `python3_list_is_homogeneous_float` treats integers as
float-compatible: it returns true (1) exactly when its argument is a list
every element of which is a float or an integer object, and false (0)
otherwise; hence for every `L`, `python3_list_is_homogeneous_int(L)` true
implies `python3_list_is_homogeneous_float(L)` true, and it returns true on
every list of integers only. -/
theorem homogeneous_float_accepts_integers :
    (∀ o, python3_list_is_homogeneous_float o = 1
      ↔ ∃ items, o = PyObj.list items ∧
          ∀ x ∈ items, PyFloat_Check x = true ∨ PyLong_Check x = true) ∧
    (∀ o, python3_list_is_homogeneous_float o = 1 ∨ python3_list_is_homogeneous_float o = 0) ∧
    (∀ o, python3_list_is_homogeneous_int o = 1 → python3_list_is_homogeneous_float o = 1) ∧
    (∀ ns : List Int,
      python3_list_is_homogeneous_float (PyObj.list (ns.map PyObj.int)) = 1) := by
  refine ⟨homogeneous_float_eq_one_iff, ?_, ?_, ?_⟩
  · intro o
    cases hc : PyList_Check o with
    | false => exact Or.inr (python3_list_is_homogeneous_float_not_list o hc)
    | true =>
      obtain ⟨items, rfl⟩ := PyList_Check_eq_true o hc
      rw [python3_list_is_homogeneous_float_list]
      split
      · exact Or.inl rfl
      · exact Or.inr rfl
  · intro o h
    obtain ⟨items, rfl, hall⟩ := (homogeneous_int_eq_one_iff o).mp h
    exact (homogeneous_float_eq_one_iff _).mpr ⟨items, rfl, fun x hx => Or.inr (hall x hx)⟩
  · intro ns
    refine (homogeneous_float_eq_one_iff _).mpr ⟨_, rfl, ?_⟩
    intro x hx
    obtain ⟨n, _, rfl⟩ := List.mem_map.mp hx
    exact Or.inr rfl

/-- Witness for C10: the all-integer list `[1, 2]` passes both probes, and the
mixed list `[1, 2.5]` passes the float probe. -/
theorem homogeneous_float_accepts_integers_witness :
    python3_list_is_homogeneous_int (PyObj.list [PyObj.int 1, PyObj.int 2]) = 1 ∧
    python3_list_is_homogeneous_float (PyObj.list [PyObj.int 1, PyObj.int 2]) = 1 ∧
    python3_list_is_homogeneous_float
      (PyObj.list [PyObj.int 1, PyObj.float ⟨0x4004000000000000⟩]) = 1 :=
  ⟨by decide,
    homogeneous_float_accepts_integers.2.2.1 (PyObj.list [PyObj.int 1, PyObj.int 2])
      (by decide),
    (homogeneous_float_accepts_integers.1 _).mpr ⟨_, rfl, by
      intro x hx
      simp only [List.mem_cons, List.mem_singleton, List.not_mem_nil, or_false] at hx
      rcases hx with rfl | rfl
      · exact Or.inr rfl
      · exact Or.inl rfl⟩⟩

/-! ### What a batch converter writes -/

/-- A converter that stores `f (values[i])` in every slot below `count` and
nothing else has the frame `WritesSlotsBelowCount`. -/
theorem writesSlotsBelowCount_of_apply {α β : Type}
    (conv : CArray α → Int → CArray β → CArray β) (f : α → β)
    (h : ∀ values count results j,
      conv values count results j = if j < count.toNat then f (values j) else results j) :
    WritesSlotsBelowCount conv := by
  refine ⟨?_, ?_, ?_⟩
  · intro values count results j hj
    rw [h, if_neg (Nat.not_lt.mpr hj)]
  · intro values count results hc j
    have h0 : count.toNat = 0 := Int.toNat_eq_zero.mpr hc
    rw [h, h0, if_neg (Nat.not_lt_zero j)]
  · intro values values2 count count2 results results2 i hi hi2 hv
    rw [h, h, if_pos hi, if_pos hi2, hv]

theorem python3_batch_num_to_py_apply (values : CArray Double) (count : Int)
    (results : CArray PyObj) (j : Nat) :
    python3_batch_num_to_py values count results j
      = if j < count.toNat then PyFloat_FromDouble (values j) else results j := by
  unfold python3_batch_num_to_py
  exact forLoop_array _ _ (fun i => PyFloat_FromDouble (values i)) (fun _ _ => rfl) results j

theorem python3_batch_str_to_py_apply (values : CArray String) (count : Int)
    (results : CArray PyObj) (j : Nat) :
    python3_batch_str_to_py values count results j
      = if j < count.toNat then PyUnicode_FromString (values j) else results j := by
  unfold python3_batch_str_to_py
  exact forLoop_array _ _ (fun i => PyUnicode_FromString (values i)) (fun _ _ => rfl) results j

/-- C11: each of the six count-taking batch converters
(`python3_batch_int_to_py`, `python3_batch_num_to_py`,
`python3_batch_str_to_py`, `python3_batch_py_to_int`,
`python3_batch_py_to_num`, `python3_batch_py_to_str`) writes the result slots
`0 .. count - 1` and no other: every slot at an index `>= count` is unchanged,
nothing changes when `count <= 0`, and the value left in `results[i]` for
`i < count` depends on `values[i]` only, not on any other element (nor on
what `results` held before). -/
theorem batch_converters_write_exactly_count (longBits : Nat) (toDouble : Int → Double)
    (ts : ThreadState) :
    WritesSlotsBelowCount (python3_batch_int_to_py longBits) ∧
    WritesSlotsBelowCount python3_batch_num_to_py ∧
    WritesSlotsBelowCount python3_batch_str_to_py ∧
    WritesSlotsBelowCount
      (fun values count results => (python3_batch_py_to_int values count results ts).1) ∧
    WritesSlotsBelowCount
      (fun values count results =>
        (python3_batch_py_to_num toDouble values count results ts).1) ∧
    WritesSlotsBelowCount
      (fun values count results => (python3_batch_py_to_str values count results ts).1) := by
  refine ⟨?_, ?_, ?_, ?_, ?_, ?_⟩
  · exact writesSlotsBelowCount_of_apply _
      (fun v => if -5 ≤ v ∧ v ≤ 256 then PyLong_FromLong (wrapSigned longBits v)
        else PyLong_FromLongLong v)
      (fun values count results j => python3_batch_int_to_py_apply longBits values count results j)
  · exact writesSlotsBelowCount_of_apply _ PyFloat_FromDouble python3_batch_num_to_py_apply
  · exact writesSlotsBelowCount_of_apply _ PyUnicode_FromString python3_batch_str_to_py_apply
  · exact writesSlotsBelowCount_of_apply _
      (fun o => if PyLong_Check o then
          (if fitsSigned 64 (intValue o) then intValue o else -1)
        else 0)
      (fun values count results j => python3_batch_py_to_int_apply values count results ts j)
  · exact writesSlotsBelowCount_of_apply _
      (fun o => if PyFloat_Check o then (PyFloat_AsDouble o ts).1
        else if PyLong_Check o then
          toDouble (if fitsSigned 64 (intValue o) then intValue o else -1)
        else Double.zero)
      (fun values count results j =>
        python3_batch_py_to_num_apply toDouble values count results ts j)
  · exact writesSlotsBelowCount_of_apply _
      (fun o => if PyUnicode_Check o then strdup (PyUnicode_AsUTF8 o ts).1
        else strdup (some ""))
      (fun values count results j => python3_batch_py_to_str_apply values count results ts j)

/-- Witness for C11: with `count = 2`, slot 2 of `results` keeps its content
`5`; with `count = -1` slot 0 keeps it; and slot 1 of two batches that agree
only in `values[1]` receives the same value. -/
theorem batch_converters_write_exactly_count_witness :
    (python3_batch_py_to_int (fun i => PyObj.int i) 2 (fun _ => 5) ⟨none⟩).1 2 = 5 ∧
    python3_batch_int_to_py 64 (fun i => i) (-1) (fun _ => PyObj.none) 0 = PyObj.none ∧
    (python3_batch_py_to_int (fun i => PyObj.int i) 2 (fun _ => 5) ⟨none⟩).1 1
      = (python3_batch_py_to_int (fun i => PyObj.int (2 - i)) 7 (fun _ => 9) ⟨none⟩).1 1 :=
  ⟨(batch_converters_write_exactly_count 64 (fun _ => Double.zero) ⟨none⟩).2.2.2.1.1
      (fun i => PyObj.int i) 2 (fun _ => 5) 2 (by decide),
    (batch_converters_write_exactly_count 64 (fun _ => Double.zero) ⟨none⟩).1.2.1
      (fun i => i) (-1) (fun _ => PyObj.none) (by decide) 0,
    (batch_converters_write_exactly_count 64 (fun _ => Double.zero) ⟨none⟩).2.2.2.1.2.2
      (fun i => PyObj.int i) (fun i => PyObj.int (2 - i)) 2 7 (fun _ => 5) (fun _ => 9) 1
      (by decide) (by decide) rfl⟩

/-! ### Reading a list into a pointer array -/

theorem python3_list_to_pointer_array_list (ob_item : List (Option Handle))
    (results : CArray (Option Handle)) (rc : RefCounts) (j : Nat) :
    (python3_list_to_pointer_array (HeapObject.seq ⟨SeqKind.list, ob_item⟩) results rc).1 j
      = if j < ob_item.length then ob_item.getD j none else results j := by
  simp only [python3_list_to_pointer_array, ByRef.PyList_Check, decide_True, Bool.not_true,
    Bool.false_eq_true, if_false, ByRef.PyList_Size, if_true, Int.toNat_ofNat]
  exact forLoop_array _ _ (fun i => ob_item.getD i none) (fun _ _ => rfl) results j

theorem python3_list_to_pointer_array_refcnt (list : HeapObject)
    (results : CArray (Option Handle)) (rc : RefCounts) :
    (python3_list_to_pointer_array list results rc).2 = rc := by
  unfold python3_list_to_pointer_array
  split <;> rfl

/-- C12: for every list of size `n`, `python3_list_to_pointer_array` writes
the list's `i`-th element into `results[i]` for every `i < n`, leaves
`results` unchanged at the indices `>= n`, and changes no reference count;
for an argument that is not a list it writes nothing. Hence reading back the
list `python3_create_list_from_pointers` builds from `values[0..n)` gives
`values[0..n)` again. -/
theorem list_to_pointer_array_reads_borrowed (results : CArray (Option Handle))
    (rc : RefCounts) :
    (∀ ob_item : List (Option Handle),
      (∀ i, i < ob_item.length →
        some ((python3_list_to_pointer_array (HeapObject.seq ⟨SeqKind.list, ob_item⟩)
          results rc).1 i) = ob_item[i]?) ∧
      (∀ j, ob_item.length ≤ j →
        (python3_list_to_pointer_array (HeapObject.seq ⟨SeqKind.list, ob_item⟩)
          results rc).1 j = results j) ∧
      (python3_list_to_pointer_array (HeapObject.seq ⟨SeqKind.list, ob_item⟩)
          results rc).2 = rc) ∧
    (∀ o, ByRef.PyList_Check o = false →
      python3_list_to_pointer_array o results rc = (results, rc)) ∧
    (∀ (values : CArray Handle) (count : Int) (rc0 : RefCounts), 0 ≤ count →
      ∃ l, (python3_create_list_from_pointers true values count rc0).1 = some l ∧
        ∀ i, i < count.toNat →
          (python3_list_to_pointer_array (HeapObject.seq l) results rc).1 i
            = some (values i)) := by
  refine ⟨?_, ?_, ?_⟩
  · intro ob_item
    refine ⟨?_, ?_, python3_list_to_pointer_array_refcnt _ results rc⟩
    · intro i hi
      rw [python3_list_to_pointer_array_list, if_pos hi, List.getD_eq_getElem?_getD,
        List.getElem?_eq_getElem hi]
      rfl
    · intro j hj
      rw [python3_list_to_pointer_array_list, if_neg (Nat.not_lt.mpr hj)]
  · intro o ho
    simp [python3_list_to_pointer_array, ho]
  · intro values count rc0 hcount
    rw [python3_create_list_from_pointers_eq values count rc0 hcount]
    refine ⟨_, rfl, ?_⟩
    intro i hi
    rw [python3_list_to_pointer_array_list]
    have hlen : ((List.range count.toNat).map (fun i => some (values i))).length
        = count.toNat := by simp
    rw [hlen, if_pos hi, List.getD_eq_getElem?_getD, getElem?_map_range_some values _ i hi]
    rfl

/-- Witness for C12: the list `[7, 8]` read into an array of `NULL`s that holds
`9` in slot 2: slot 1 receives `8`, slot 2 keeps `9`; a tuple writes nothing;
and the list built from `[7, 8, 7]` reads back as `7, 8, 7`. -/
theorem list_to_pointer_array_reads_borrowed_witness :
    some ((python3_list_to_pointer_array (HeapObject.seq ⟨SeqKind.list, [some 7, some 8]⟩)
        (fun j => if j = 2 then some 9 else none) (fun _ => 1)).1 1)
      = [some 7, some 8][1]? ∧
    (python3_list_to_pointer_array (HeapObject.seq ⟨SeqKind.list, [some 7, some 8]⟩)
        (fun j => if j = 2 then some 9 else none) (fun _ => 1)).1 2 = some 9 ∧
    python3_list_to_pointer_array (HeapObject.seq ⟨SeqKind.tuple, [some 7, some 8]⟩)
        (fun j => if j = 2 then some 9 else none) (fun _ => 1)
      = ((fun j => if j = 2 then some 9 else none), (fun _ => 1)) ∧
    (∃ l, (python3_create_list_from_pointers true (fun i => [7, 8, 7].getD i 0) 3
          (fun _ => 1)).1 = some l ∧
      ∀ i, i < (3 : Int).toNat →
        (python3_list_to_pointer_array (HeapObject.seq l)
          (fun j => if j = 2 then some 9 else none) (fun _ => 1)).1 i
          = some ([7, 8, 7].getD i 0)) :=
  ⟨((list_to_pointer_array_reads_borrowed (fun j => if j = 2 then some 9 else none)
      (fun _ => 1)).1 [some 7, some 8]).1 1 (by decide),
    ((list_to_pointer_array_reads_borrowed (fun j => if j = 2 then some 9 else none)
      (fun _ => 1)).1 [some 7, some 8]).2.1 2 (by decide),
    (list_to_pointer_array_reads_borrowed (fun j => if j = 2 then some 9 else none)
      (fun _ => 1)).2.1 (HeapObject.seq ⟨SeqKind.tuple, [some 7, some 8]⟩) rfl,
    (list_to_pointer_array_reads_borrowed (fun j => if j = 2 then some 9 else none)
      (fun _ => 1)).2.2 (fun i => [7, 8, 7].getD i 0) 3 (fun _ => 1) (by decide)⟩

/-! ### The error bridge -/

/-- With no exception pending, `python3_fetch_error` returns the all-absent
error, whatever the struct held before. -/
theorem python3_fetch_error_nothing_pending (rt : ErrorRuntime) (indicator : ExcTriple)
    (error : PythonError) (hnone : indicator.type = none) :
    python3_fetch_error rt indicator error = ⟨none, none, none, none⟩ := by
  simp [python3_fetch_error, PyErr_Fetch, hnone]

/-- With an exception pending and the `traceback` module missing,
`python3_fetch_error` returns the three normalised components and leaves the
`formatted_exception` field as it found it. -/
theorem python3_fetch_error_import_fails (rt : ErrorRuntime) (indicator : ExcTriple)
    (error : PythonError) (hsome : indicator.type ≠ none)
    (himport : rt.PyImport_ImportModule "traceback" = none) :
    python3_fetch_error rt indicator error
      = ⟨(rt.PyErr_NormalizeException indicator).type,
          (rt.PyErr_NormalizeException indicator).value,
          (rt.PyErr_NormalizeException indicator).traceback,
          error.formatted_exception⟩ := by
  simp [python3_fetch_error, PyErr_Fetch, hsome, himport]

/-- With an exception pending, whichever step of the rendering fails (importing
`traceback`, looking up `format_exception`, the call, or the join),
`python3_fetch_error` returns the three normalised components and leaves the
`formatted_exception` field as it found it. -/
theorem python3_fetch_error_render_fails (rt : ErrorRuntime) (indicator : ExcTriple)
    (error : PythonError) (hsome : indicator.type ≠ none)
    (hfail : ((rt.PyImport_ImportModule "traceback").bind (fun tb_module =>
        (rt.PyObject_GetAttrString tb_module "format_exception").bind (fun format_func =>
          (rt.PyObject_CallObject format_func
            [(rt.PyErr_NormalizeException indicator).type.getD rt.Py_None,
              (rt.PyErr_NormalizeException indicator).value.getD rt.Py_None,
              (rt.PyErr_NormalizeException indicator).traceback.getD rt.Py_None]).bind
            (fun tb_list => rt.PyUnicode_Join "" tb_list)))) = none) :
    python3_fetch_error rt indicator error
      = ⟨(rt.PyErr_NormalizeException indicator).type,
          (rt.PyErr_NormalizeException indicator).value,
          (rt.PyErr_NormalizeException indicator).traceback,
          error.formatted_exception⟩ := by
  have heta : (⟨indicator.type, indicator.value, indicator.traceback⟩ : ExcTriple)
      = indicator := rfl
  simp only [python3_fetch_error, PyErr_Fetch, hsome, if_false, heta]
  cases h1 : rt.PyImport_ImportModule "traceback" with
  | none => rfl
  | some tb_module =>
    rw [h1] at hfail
    simp only [Option.some_bind] at hfail
    cases h2 : rt.PyObject_GetAttrString tb_module "format_exception" with
    | none => simp only [h2]
    | some format_func =>
      rw [h2] at hfail
      simp only [Option.some_bind] at hfail
      cases h3 : rt.PyObject_CallObject format_func
          [(rt.PyErr_NormalizeException indicator).type.getD rt.Py_None,
            (rt.PyErr_NormalizeException indicator).value.getD rt.Py_None,
            (rt.PyErr_NormalizeException indicator).traceback.getD rt.Py_None] with
      | none => simp only [h2, h3]
      | some tb_list =>
        rw [h3] at hfail
        simp only [Option.some_bind] at hfail
        simp only [h2, h3, hfail]

/-- C13 (the code at the failing input): an exception `(10, 11, NULL)` is
pending, the `traceback` module cannot be imported, and the struct passed in
still holds the string `"stale"` in `formatted_exception`. After
`python3_fetch_error` the three components are returned, but the formatted
string is still `"stale"`, not `NULL`; on the same struct with no exception
pending the function does set it to `NULL`. -/
theorem fetch_error_keeps_stale_formatted_string :
    python3_fetch_error runtimeWithoutTraceback ⟨some 10, some 11, none⟩
        ⟨none, none, none, some "stale"⟩
      = ⟨some 10, some 11, none, some "stale"⟩ ∧
    ¬ ((python3_fetch_error runtimeWithoutTraceback ⟨some 10, some 11, none⟩
        ⟨none, none, none, some "stale"⟩).formatted_exception = none) ∧
    (python3_fetch_error runtimeWithoutTraceback ⟨none, none, none⟩
        ⟨none, none, none, some "stale"⟩).formatted_exception = none := by
  refine ⟨by decide, by decide, by decide⟩

/-! ### Initialization -/

/-- C14 (as stated, refuted): a first pair of callbacks (a host answering `3`)
is registered and the runtime is not running; `python3_init_python` is called
with a second pair (a host reporting `"e"`) and fails with `-1`. Afterwards
the registered pair is the second one, and the table of built-in modules has
gained the entry `"python3"`: the state is not the one before the call. -/
theorem failed_init_leaves_registration_changed :
    (python3_init_python false true (hostFailing (PyObj.str "e"))
        ⟨some (hostReturning (PyObj.int 3)), false, [], false⟩).1 = -1 ∧
    ((python3_init_python false true (hostFailing (PyObj.str "e"))
        ⟨some (hostReturning (PyObj.int 3)), false, [], false⟩).2.raku_callbacks.map
      (fun cb => (cb.call_raku_object 0 PyObj.none ⟨none⟩).result.isSome)) = some false ∧
    ((some (hostReturning (PyObj.int 3)) : Option RakuCallbacks).map
      (fun cb => (cb.call_raku_object 0 PyObj.none ⟨none⟩).result.isSome)) = some true ∧
    (python3_init_python false true (hostFailing (PyObj.str "e"))
        ⟨some (hostReturning (PyObj.int 3)), false, [], false⟩).2.inittab = ["python3"] ∧
    ¬ ((python3_init_python false true (hostFailing (PyObj.str "e"))
        ⟨some (hostReturning (PyObj.int 3)), false, [], false⟩).2.inittab = []) := by
  refine ⟨rfl, rfl, rfl, rfl, ?_⟩
  decide

/-- C14 (amended): when `python3_init_python` fails (returns `-1`), the
embedded runtime was not running and is left not running, but the
registration made on the way is kept: the registered callback pair is the one
passed to the failing call (whatever pair was registered before), and the
entry `"python3"` appended to the table of built-in modules stays; the
datetime API is as before. -/
theorem failed_init_keeps_new_registration (startOk datetimeOk : Bool)
    (callbacks : RakuCallbacks) (s : BridgeState)
    (hfail : (python3_init_python startOk datetimeOk callbacks s).1 = -1) :
    (python3_init_python startOk datetimeOk callbacks s).2.raku_callbacks = some callbacks ∧
    (python3_init_python startOk datetimeOk callbacks s).2.inittab
      = s.inittab ++ ["python3"] ∧
    s.initialized = false ∧
    (python3_init_python startOk datetimeOk callbacks s).2.initialized = false ∧
    (python3_init_python startOk datetimeOk callbacks s).2.datetime_api = s.datetime_api := by
  unfold python3_init_python at hfail ⊢
  cases hi : s.initialized with
  | true => simp [hi] at hfail
  | false =>
    cases hs : startOk with
    | true => simp [hi, hs] at hfail
    | false => simp [hi]

/-- Witness for C14 (amended): the failing call of the counterexample. -/
theorem failed_init_keeps_new_registration_witness :
    (python3_init_python false true (hostFailing (PyObj.str "e"))
        ⟨some (hostReturning (PyObj.int 3)), false, [], false⟩).1 = -1 ∧
    (python3_init_python false true (hostFailing (PyObj.str "e"))
        ⟨some (hostReturning (PyObj.int 3)), false, [], false⟩).2.inittab
      = [] ++ ["python3"] ∧
    (python3_init_python false true (hostFailing (PyObj.str "e"))
        ⟨some (hostReturning (PyObj.int 3)), false, [], false⟩).2.initialized = false :=
  ⟨rfl,
    (failed_init_keeps_new_registration false true (hostFailing (PyObj.str "e"))
      ⟨some (hostReturning (PyObj.int 3)), false, [], false⟩ rfl).2.1,
    (failed_init_keeps_new_registration false true (hostFailing (PyObj.str "e"))
      ⟨some (hostReturning (PyObj.int 3)), false, [], false⟩ rfl).2.2.2.1⟩

/-! ### The scratch pool -/

theorem batch_pool_alloc_fail (r : Option Nat) (n : Nat) (pool pool1 : MemoryPool)
    (h : batch_pool_alloc r n pool = (none, pool1)) : pool1 = pool := by
  unfold batch_pool_alloc at h
  by_cases hg : (pool.used + n) % SIZE_MODULUS > pool.size
  · cases r with
    | none =>
      simp only [hg, if_true, Prod.mk.injEq, true_and] at h
      exact h.symm
    | some m => simp [hg] at h
  · simp [hg] at h

theorem batch_pool_alloc_realloc_null (n : Nat) (pool : MemoryPool)
    (hgrow : (pool.used + n) % SIZE_MODULUS > pool.size) :
    batch_pool_alloc none n pool = (none, pool) := by
  simp [batch_pool_alloc, hgrow]

theorem batch_pool_alloc_success (r : Option Nat) (n : Nat) (pool pool1 : MemoryPool)
    (p : PoolPtr) (hno : pool.used + n < SIZE_MODULUS)
    (h : batch_pool_alloc r n pool = (some p, pool1)) :
    p.offset = pool.used ∧ pool1.used = pool.used + n := by
  unfold batch_pool_alloc at h
  rw [Nat.mod_eq_of_lt hno] at h
  by_cases hg : pool.used + n > pool.size
  · cases r with
    | none => simp [hg] at h
    | some m =>
      simp only [hg, if_true, Prod.mk.injEq, Option.some.injEq] at h
      obtain ⟨hp, hpool⟩ := h
      subst hp hpool
      simp [Nat.mod_eq_of_lt hno]
  · simp only [hg, if_false, Prod.mk.injEq, Option.some.injEq] at h
    obtain ⟨hp, hpool⟩ := h
    subst hp hpool
    simp [Nat.mod_eq_of_lt hno]

theorem batch_pool_alloc_invariant (r : Option Nat) (n : Nat) (pool : MemoryPool)
    (hinv : pool.used ≤ pool.size) :
    (batch_pool_alloc r n pool).2.used ≤ (batch_pool_alloc r n pool).2.size := by
  unfold batch_pool_alloc
  by_cases hg : (pool.used + n) % SIZE_MODULUS > pool.size
  · cases r with
    | none => simpa [hg] using hinv
    | some m =>
      simp only [hg, if_true]
      rw [Nat.add_comm n pool.used]
      split
      · exact le_refl _
      · rename_i hlt
        exact Nat.le_of_not_lt hlt
  · simp only [hg, if_false]
    exact Nat.le_of_not_lt hg

theorem runPool_invariant (ops : List PoolOp) (pool : MemoryPool)
    (hinv : pool.used ≤ pool.size) :
    (runPool ops pool).used ≤ (runPool ops pool).size := by
  induction ops generalizing pool with
  | nil => exact hinv
  | cons op rest ih =>
    have hstep : (op.apply pool).used ≤ (op.apply pool).size := by
      cases op with
      | alloc n r => exact batch_pool_alloc_invariant r n pool hinv
      | reset => exact Nat.zero_le _
      | free => exact Nat.le_refl _
    exact ih (op.apply pool) hstep

/-- In a run of allocations without overflow, every range starts at or after
the `used` mark of the pool the run starts from, and each range ends before
the later ones start. -/
theorem allocRanges_ordered (reqs : List (Nat × Option Nat)) (pool : MemoryPool)
    (hno : pool.used + (reqs.map Prod.fst).sum < SIZE_MODULUS) :
    (∀ a ∈ allocRanges reqs pool, pool.used ≤ a.1) ∧
    (allocRanges reqs pool).Pairwise (fun a b => a.1 + a.2 ≤ b.1) := by
  induction reqs generalizing pool with
  | nil => exact ⟨fun a ha => absurd ha (List.not_mem_nil a), List.Pairwise.nil⟩
  | cons req rest ih =>
    obtain ⟨n, r⟩ := req
    simp only [List.map_cons, List.sum_cons] at hno
    cases hres : batch_pool_alloc r n pool with
    | mk res pool1 =>
      cases res with
      | none =>
        have hp : pool1 = pool := batch_pool_alloc_fail r n pool pool1 hres
        subst hp
        have := ih pool1 (by omega)
        simpa [allocRanges, hres] using this
      | some p =>
        obtain ⟨hoff, hused⟩ := batch_pool_alloc_success r n pool pool1 p (by omega) hres
        obtain ⟨hlow, hpair⟩ := ih pool1 (by omega)
        have hlist : allocRanges ((n, r) :: rest) pool
            = (p.offset, n) :: allocRanges rest pool1 := by
          simp [allocRanges, hres]
        rw [hlist]
        refine ⟨?_, ?_⟩
        · intro a ha
          rcases List.mem_cons.mp ha with rfl | ha
          · exact Nat.le_of_eq hoff.symm
          · have := hlow a ha
            omega
        · refine List.Pairwise.cons ?_ hpair
          intro a ha
          have := hlow a ha
          simp only
          omega

theorem rangesDisjoint_of_le (a b : Nat × Nat) (h : a.1 + a.2 ≤ b.1) : RangesDisjoint a b := by
  intro x hx
  omega

/-- C15 (as stated, refuted): after a reset, `batch_pool_alloc(4)` succeeds at
offset 0, `batch_pool_free` is called, and `batch_pool_alloc(4)` succeeds
again at offset 0: two allocations made with no `batch_pool_reset` between
them occupy the same offsets `[0, 4)`. -/
theorem allocations_overlap_across_free :
    rangesSinceReset
        [PoolOp.reset, PoolOp.alloc 4 (some 1000), PoolOp.free, PoolOp.alloc 4 (some 2000)]
        batch_pool_initial []
      = [(0, 4), (0, 4)] ∧
    ¬ (rangesSinceReset
        [PoolOp.reset, PoolOp.alloc 4 (some 1000), PoolOp.free, PoolOp.alloc 4 (some 2000)]
        batch_pool_initial []).Pairwise RangesDisjoint := by
  have heq : rangesSinceReset
      [PoolOp.reset, PoolOp.alloc 4 (some 1000), PoolOp.free, PoolOp.alloc 4 (some 2000)]
      batch_pool_initial [] = [(0, 4), (0, 4)] := by decide
  refine ⟨heq, ?_⟩
  rw [heq]
  intro h
  have hd : RangesDisjoint (0, 4) (0, 4) :=
    (List.pairwise_cons.mp h).1 (0, 4) (List.mem_singleton.mpr rfl)
  exact hd 0 ⟨Nat.le_refl 0, by decide, Nat.le_refl 0, by decide⟩

/-- C15 (amended): the scratch pool keeps `used <= size` in every state
reachable from the initial empty pool by any sequence of `batch_pool_alloc`,
`batch_pool_reset` and `batch_pool_free`. When `used + n` does not overflow
`size_t`, a successful `batch_pool_alloc(n)` returns the offset equal to the
previous `used` and advances `used` by exactly `n`, so the allocations of a
run of `batch_pool_alloc` calls with no `batch_pool_reset` and no
`batch_pool_free` among them occupy pairwise disjoint offset ranges. A failed
allocation (`realloc` is needed and returns `NULL`) returns `NULL` and leaves
the pool unchanged; `batch_pool_reset` sets `used` to 0 and leaves `memory`
and `size` unchanged. -/
theorem scratch_pool_discipline :
    (∀ ops, (runPool ops batch_pool_initial).used ≤ (runPool ops batch_pool_initial).size) ∧
    (∀ r n pool p pool1, pool.used + n < SIZE_MODULUS →
      batch_pool_alloc r n pool = (some p, pool1) →
        p.offset = pool.used ∧ pool1.used = pool.used + n) ∧
    (∀ reqs pool, pool.used + (reqs.map Prod.fst).sum < SIZE_MODULUS →
      (allocRanges reqs pool).Pairwise RangesDisjoint) ∧
    (∀ n pool, (pool.used + n) % SIZE_MODULUS > pool.size →
      batch_pool_alloc none n pool = (none, pool)) ∧
    (∀ r n pool pool1, batch_pool_alloc r n pool = (none, pool1) → pool1 = pool) ∧
    (∀ pool, batch_pool_reset pool = ⟨pool.memory, pool.size, 0⟩) := by
  refine ⟨?_, ?_, ?_, ?_, ?_, ?_⟩
  · intro ops
    exact runPool_invariant ops batch_pool_initial (Nat.le_refl 0)
  · intro r n pool p pool1 hno h
    exact batch_pool_alloc_success r n pool pool1 p hno h
  · intro reqs pool hno
    exact (allocRanges_ordered reqs pool hno).2.imp (fun {a b} h => rangesDisjoint_of_le a b h)
  · intro n pool hgrow
    exact batch_pool_alloc_realloc_null n pool hgrow
  · intro r n pool pool1 h
    exact batch_pool_alloc_fail r n pool pool1 h
  · intro pool
    rfl

/-- Witness for C15 (amended): from the empty pool, `alloc(4)`, `alloc(3)`, a
failing `alloc(2)` and `alloc(1)`: the pool ends with `used = size = 8`, the
second allocation is at offset 4 and brings `used` to 7, the three successful
ranges are disjoint, and the failing call changes nothing. -/
theorem scratch_pool_discipline_witness :
    (runPool [PoolOp.alloc 4 (some 1000), PoolOp.alloc 3 (some 2000), PoolOp.alloc 2 none,
        PoolOp.alloc 1 (some 5)] batch_pool_initial).used
      ≤ (runPool [PoolOp.alloc 4 (some 1000), PoolOp.alloc 3 (some 2000), PoolOp.alloc 2 none,
        PoolOp.alloc 1 (some 5)] batch_pool_initial).size ∧
    ((⟨some 2000, 4⟩ : PoolPtr).offset = (⟨some 1000, 4, 4⟩ : MemoryPool).used ∧
      (⟨some 2000, 8, 7⟩ : MemoryPool).used = (⟨some 1000, 4, 4⟩ : MemoryPool).used + 3) ∧
    (allocRanges [(4, some 1000), (3, some 2000), (2, none), (1, some 5)]
        batch_pool_initial).Pairwise RangesDisjoint ∧
    batch_pool_alloc none 2 ⟨some 2000, 8, 7⟩ = (none, ⟨some 2000, 8, 7⟩) :=
  ⟨scratch_pool_discipline.1 _,
    scratch_pool_discipline.2.1 (some 2000) 3 ⟨some 1000, 4, 4⟩ ⟨some 2000, 4⟩ ⟨some 2000, 8, 7⟩
      (by decide) (by decide),
    scratch_pool_discipline.2.2.1 [(4, some 1000), (3, some 2000), (2, none), (1, some 5)]
      batch_pool_initial (by decide),
    scratch_pool_discipline.2.2.2.1 2 ⟨some 2000, 8, 7⟩ (by decide)⟩

end RakuPython3
